import Mathlib

/-!
Shallow embedding of the NuPlayer controller state machine
(media/libmediaplayerservice/nuplayer/NuPlayer.cpp).

Controller fields are booleans for handle presence (an sp<> handle being
non-null), the FlushStatus enumeration, and a Nat generation counter
(int32_t in the source, modelled modulo 2^32). External collaborators
(source, decoders, renderer, audio sink, listener) are oracles: results of
calls whose values the handlers branch on travel as message payload
fields, and the calls the handlers make are recorded in an event list.
CHECK macro failures and null decoder-handle dereferences abort the
process; they are modelled as faults of an Except computation.
-/

namespace NuPlayer

/-- FlushStatus enumeration of NuPlayer.h, as used throughout NuPlayer.cpp. -/
inductive FlushStatus
  | NONE
  | AWAITING_DISCONTINUITY
  | FLUSHING_DECODER
  | FLUSHING_DECODER_SHUTDOWN
  | SHUTTING_DOWN_DECODER
  | FLUSHED
  | SHUT_DOWN
deriving DecidableEq, Repr

/-- Listener event codes sent through notifyListener. -/
inductive NotifyCode
  | PLAYBACK_COMPLETE
  | RESET_COMPLETE
deriving DecidableEq, Repr

/-- Externally visible actions a handler performs: calls on the source,
decoders, renderer, audio sink and listener, replies posted to a decoder
request, and messages the controller posts to itself. postScan carries
the generation stored in the message; delayed is true for the re-post
with the 100000 microsecond delay in the kWhatScanSources arm. -/
inductive Event
  | sendEvent (code : NotifyCode)
  | sourceStartCall
  | sourceGetFormat (audio : Bool)
  | sourceFeedMore
  | sourceDequeue (audio : Bool)
  | decoderCreate (audio : Bool)
  | decoderConfigure (audio : Bool)
  | signalFlush (audio : Bool)
  | signalResume (audio : Bool)
  | initiateShutdown (audio : Bool)
  | rendererCreate
  | rendererFlush (audio : Bool)
  | signalTimeDiscontinuity
  | queueEOS (audio : Bool)
  | queueBuffer (audio : Bool)
  | audioSinkClose
  | audioSinkOpen (sampleRate numChannels : Int)
  | audioSinkStart
  | signalAudioSinkChanged
  | replyError (discontinuity : Bool)
  | replyBuffer
  | postScan (gen : Nat) (delayed : Bool)
  | postReset
  | repostNotify (audio : Bool)
deriving DecidableEq, Repr

/-- A fault aborts the process: a CHECK macro failure, or a dereference of
a null decoder handle. -/
inductive Fault
  | checkFail
  | nullDeref
deriving DecidableEq, Repr

/-- Oracle for the outcome of Source::dequeueAccessUnit: OK with a buffer,
-EWOULDBLOCK, INFO_DISCONTINUITY (with the discontinuity type compared to
ATSParser::DISCONTINUITY_FORMATCHANGE), or any other error. -/
inductive DequeueResult
  | ok
  | wouldBlock
  | discontinuity (formatChange : Bool)
  | otherError
deriving DecidableEq, Repr

/-- Messages dispatched to NuPlayer::onMessageReceived, with the oracle
results of the external calls the corresponding handler makes embedded as
payload fields. setListener is the direct setter NuPlayer::setListener,
included as a message for uniformity. The kWhatAudioNotify and
kWhatVideoNotify codec requests are split by their inner what tag. -/
inductive Msg
  | setListener
  | setDataSource
  | setVideoSurface
  | setAudioSink
  | start
  | scanSources (generation : Nat) (videoFormat audioFormat feedMore : Bool)
  | fillThisBuffer (audio : Bool) (dq : DequeueResult) (feedMore : Bool)
  | decoderEOS (audio : Bool)
  | flushCompleted (audio : Bool)
  | outputFormatChanged (audio : Bool) (sampleRate numChannels : Int) (openOk : Bool)
  | shutdownCompleted (audio : Bool)
  | drainThisBuffer (audio : Bool)
  | rendererEOS (audio : Bool)
  | rendererFlushComplete (audio : Bool)
  | moreDataQueued
  | reset
deriving DecidableEq, Repr

/-- The NuPlayer controller state: member fields of the NuPlayer class.
Handles are booleans recording presence (non-null). -/
structure NPState where
  mSource : Bool
  mSurface : Bool
  mAudioSink : Bool
  mRenderer : Bool
  mAudioDecoder : Bool
  mVideoDecoder : Bool
  mListener : Bool
  mAudioEOS : Bool
  mVideoEOS : Bool
  mScanSourcesPending : Bool
  mScanSourcesGeneration : Nat
  mFlushingAudio : FlushStatus
  mFlushingVideo : FlushStatus
  mResetInProgress : Bool
  mResetPostponed : Bool
deriving DecidableEq, Repr

/-- State after the NuPlayer constructor, before setListener. -/
def initState : NPState :=
  { mSource := false, mSurface := false, mAudioSink := false,
    mRenderer := false, mAudioDecoder := false, mVideoDecoder := false,
    mListener := false, mAudioEOS := false, mVideoEOS := false,
    mScanSourcesPending := false, mScanSourcesGeneration := 0,
    mFlushingAudio := .NONE, mFlushingVideo := .NONE,
    mResetInProgress := false, mResetPostponed := false }

/-- Flush status of the audio or the video track. -/
def NPState.flushingOf (s : NPState) (audio : Bool) : FlushStatus :=
  if audio then s.mFlushingAudio else s.mFlushingVideo

/-- Presence of the audio or the video decoder handle. -/
def NPState.decoderOf (s : NPState) (audio : Bool) : Bool :=
  if audio then s.mAudioDecoder else s.mVideoDecoder

/-- NuPlayer::IsFlushingState without the needShutdown out-parameter:
true exactly for FLUSHING_DECODER and FLUSHING_DECODER_SHUTDOWN. -/
def IsFlushingState (state : FlushStatus) : Bool :=
  match state with
  | .FLUSHING_DECODER => true
  | .FLUSHING_DECODER_SHUTDOWN => true
  | _ => false

/-- NuPlayer::IsFlushingState with the needShutdown out-parameter: the
pair is (return value, value stored through needShutdown). In the default
branch the out-parameter is not written; the caller only reads it after a
CHECK on the return value, so the second component is arbitrary there. -/
def IsFlushingStateNS (state : FlushStatus) : Bool × Bool :=
  match state with
  | .FLUSHING_DECODER => (true, false)
  | .FLUSHING_DECODER_SHUTDOWN => (true, true)
  | _ => (false, false)

/-- NuPlayer::notifyListener: sends the event iff the weak listener is
still alive (modelled by the mListener flag). -/
def notifyListener (s : NPState) (code : NotifyCode) : List Event :=
  if s.mListener then [.sendEvent code] else []

/-- NuPlayer::flushDecoder (lines 535-568): bump the scan generation,
signal the decoder flush (a null decoder handle here is a nullDeref
fault) and the renderer flush, move this track to
FLUSHING_DECODER_SHUTDOWN or FLUSHING_DECODER after a CHECK that it was
NONE or AWAITING_DISCONTINUITY, and move a NONE peer to
AWAITING_DISCONTINUITY if its decoder exists, else to FLUSHED. -/
def flushDecoder (audio needShutdown : Bool) (s : NPState) :
    Except Fault (NPState × List Event) :=
  let s0 := { s with
    mScanSourcesGeneration := (s.mScanSourcesGeneration + 1) % 4294967296 }
  if (if audio then s0.mAudioDecoder else s0.mVideoDecoder) = false then
    .error .nullDeref
  else
    let ev : List Event := [.signalFlush audio, .rendererFlush audio]
    let newStatus :=
      if needShutdown then FlushStatus.FLUSHING_DECODER_SHUTDOWN
      else FlushStatus.FLUSHING_DECODER
    if audio then
      if s0.mFlushingAudio = .NONE ∨ s0.mFlushingAudio = .AWAITING_DISCONTINUITY then
        let s1 := { s0 with mFlushingAudio := newStatus }
        let s2 :=
          if s1.mFlushingVideo = .NONE then
            { s1 with mFlushingVideo :=
                if s1.mVideoDecoder then .AWAITING_DISCONTINUITY else .FLUSHED }
          else s1
        .ok (s2, ev)
      else .error .checkFail
    else
      if s0.mFlushingVideo = .NONE ∨ s0.mFlushingVideo = .AWAITING_DISCONTINUITY then
        let s1 := { s0 with mFlushingVideo := newStatus }
        let s2 :=
          if s1.mFlushingAudio = .NONE then
            { s1 with mFlushingAudio :=
                if s1.mAudioDecoder then .AWAITING_DISCONTINUITY else .FLUSHED }
          else s1
        .ok (s2, ev)
      else .error .checkFail

/-- NuPlayer::finishReset (lines 411-419): CHECK both decoders are gone,
clear the renderer and the source, notify RESET_COMPLETE. -/
def finishReset (s : NPState) : Except Fault (NPState × List Event) :=
  if s.mAudioDecoder ∨ s.mVideoDecoder then .error .checkFail
  else
    .ok ({ s with mRenderer := false, mSource := false },
         notifyListener s .RESET_COMPLETE)

/-- NuPlayer::postScanSources (lines 421-431): a no-op when a scan is
already pending, else post a ScanSources message carrying the current
generation and set the pending flag. -/
def postScanSources (s : NPState) : NPState × List Event :=
  if s.mScanSourcesPending then (s, [])
  else ({ s with mScanSourcesPending := true },
        [.postScan s.mScanSourcesGeneration false])

/-- NuPlayer::finishFlushIfPossible (lines 368-409): return unless both
tracks are FLUSHED or SHUT_DOWN; then signal the renderer time
discontinuity, resume each still-present decoder of a non-SHUT_DOWN
track, reset both statuses to NONE, and run the reset-in-progress,
reset-postponed or scan-again continuation. -/
def finishFlushIfPossible (s : NPState) : Except Fault (NPState × List Event) :=
  if s.mFlushingAudio ≠ .FLUSHED ∧ s.mFlushingAudio ≠ .SHUT_DOWN then .ok (s, [])
  else if s.mFlushingVideo ≠ .FLUSHED ∧ s.mFlushingVideo ≠ .SHUT_DOWN then .ok (s, [])
  else
    let scanA := s.mFlushingAudio = .SHUT_DOWN
    let evA : List Event :=
      if scanA then [] else if s.mAudioDecoder then [.signalResume true] else []
    let scanV := s.mFlushingVideo = .SHUT_DOWN
    let evV : List Event :=
      if scanV then [] else if s.mVideoDecoder then [.signalResume false] else []
    let scanSourcesAgain := scanA ∨ scanV
    let ev0 := Event.signalTimeDiscontinuity :: (evA ++ evV)
    let s1 := { s with mFlushingAudio := .NONE, mFlushingVideo := .NONE }
    if s1.mResetInProgress then
      match finishReset { s1 with mResetInProgress := false } with
      | .error f => .error f
      | .ok (s2, ev2) => .ok (s2, ev0 ++ ev2)
    else if s1.mResetPostponed then
      .ok ({ s1 with mResetPostponed := false }, ev0 ++ [.postReset])
    else if scanSourcesAgain then
      let (s2, ev2) := postScanSources s1
      .ok (s2, ev0 ++ ev2)
    else .ok (s1, ev0)

/-- NuPlayer::instantiateDecoder (lines 433-454) for one track, with the
format availability of the source as an oracle: a no-op when the decoder
already exists; else query the format and, when available, create,
register and configure the decoder. -/
def instantiateDecoder (audio : Bool) (hasFormat : Bool) (s : NPState) :
    NPState × List Event :=
  if s.decoderOf audio then (s, [])
  else if hasFormat then
    (if audio then { s with mAudioDecoder := true }
     else { s with mVideoDecoder := true },
     [.sourceGetFormat audio, .decoderCreate audio, .decoderConfigure audio])
  else (s, [.sourceGetFormat audio])

/-- NuPlayer::feedDecoderInputData (lines 456-505). The third component
of the result is true iff the function returns -EWOULDBLOCK to its
caller. When IsFlushingState holds for the track the reply gets an
INFO_DISCONTINUITY error and the source is not dequeued; otherwise the
source is dequeued and the result dispatched as in the code. -/
def feedDecoderInputData (audio : Bool) (dq : DequeueResult) (s : NPState) :
    Except Fault (NPState × List Event × Bool) :=
  if IsFlushingState (s.flushingOf audio) then
    .ok (s, [.replyError true], false)
  else
    match dq with
    | .wouldBlock => .ok (s, [.sourceDequeue audio], true)
    | .discontinuity formatChange =>
      match flushDecoder audio formatChange s with
      | .error f => .error f
      | .ok (s1, ev1) =>
        .ok (s1, .sourceDequeue audio :: (ev1 ++ [.replyError true]), false)
    | .otherError => .ok (s, [.sourceDequeue audio, .replyError false], false)
    | .ok => .ok (s, [.sourceDequeue audio, .replyBuffer], false)

/-- NuPlayer::onMessageReceived (lines 117-366), one arm per message,
together with the public setters that are not routed through messages. -/
def onMessageReceived (s : NPState) (m : Msg) : Except Fault (NPState × List Event) :=
  match m with
  | .setListener => .ok ({ s with mListener := true }, [])
  | .setDataSource =>
    if s.mSource then .error .checkFail
    else .ok ({ s with mSource := true }, [])
  | .setVideoSurface => .ok ({ s with mSurface := true }, [])
  | .setAudioSink => .ok ({ s with mAudioSink := true }, [])
  | .start =>
    let s1 := { s with mAudioEOS := false, mVideoEOS := false, mRenderer := true }
    let (s2, ev2) := postScanSources s1
    .ok (s2, [.sourceStartCall, .rendererCreate] ++ ev2)
  | .scanSources g vf af fm =>
    if g ≠ s.mScanSourcesGeneration then .ok (s, [])
    else
      let s1 := { s with mScanSourcesPending := false }
      let (s2, ev2) := instantiateDecoder false vf s1
      let (s3, ev3) :=
        if s2.mAudioSink then instantiateDecoder true af s2 else (s2, [])
      if fm = false then
        if s3.mAudioDecoder = false ∧ s3.mVideoDecoder = false then
          .ok (s3, ev2 ++ ev3 ++ [.sourceFeedMore] ++
                   notifyListener s3 .PLAYBACK_COMPLETE)
        else .ok (s3, ev2 ++ ev3 ++ [.sourceFeedMore])
      else
        if s3.mAudioDecoder = false ∨ s3.mVideoDecoder = false then
          .ok ({ s3 with mScanSourcesPending := true },
               ev2 ++ ev3 ++ [.sourceFeedMore, .postScan g true])
        else .ok (s3, ev2 ++ ev3 ++ [.sourceFeedMore])
  | .fillThisBuffer audio dq fm =>
    match feedDecoderInputData audio dq s with
    | .error f => .error f
    | .ok (s1, ev1, wouldBlock) =>
      if wouldBlock then
        if fm then .ok (s1, ev1 ++ [.sourceFeedMore, .repostNotify audio])
        else .ok (s1, ev1 ++ [.sourceFeedMore])
      else .ok (s1, ev1)
  | .decoderEOS audio => .ok (s, [.queueEOS audio])
  | .flushCompleted audio =>
    let p := IsFlushingStateNS (s.flushingOf audio)
    if p.1 = false then .error .checkFail
    else
      let s1 :=
        if audio then { s with mFlushingAudio := .FLUSHED }
        else { s with mFlushingVideo := .FLUSHED }
      if p.2 then
        if s1.decoderOf audio = false then .error .nullDeref
        else
          let s2 :=
            if audio then { s1 with mFlushingAudio := .SHUTTING_DOWN_DECODER }
            else { s1 with mFlushingVideo := .SHUTTING_DOWN_DECODER }
          match finishFlushIfPossible s2 with
          | .error f => .error f
          | .ok (s3, ev3) => .ok (s3, .initiateShutdown audio :: ev3)
      else
        finishFlushIfPossible s1
  | .outputFormatChanged audio rate ch openOk =>
    if audio = false then .error .checkFail
    else if openOk = false then .error .checkFail
    else .ok (s, [.audioSinkClose, .audioSinkOpen rate ch, .audioSinkStart,
                  .signalAudioSinkChanged])
  | .shutdownCompleted audio =>
    let s1 :=
      if audio then { s with mAudioDecoder := false }
      else { s with mVideoDecoder := false }
    if s.flushingOf audio ≠ .SHUTTING_DOWN_DECODER then .error .checkFail
    else
      let s2 :=
        if audio then { s1 with mFlushingAudio := .SHUT_DOWN }
        else { s1 with mFlushingVideo := .SHUT_DOWN }
      finishFlushIfPossible s2
  | .drainThisBuffer audio => .ok (s, [.queueBuffer audio])
  | .rendererEOS audio =>
    let s1 :=
      if audio then { s with mAudioEOS := true } else { s with mVideoEOS := true }
    if (s1.mAudioEOS ∨ s1.mAudioDecoder = false) ∧
       (s1.mVideoEOS ∨ s1.mVideoDecoder = false) then
      .ok (s1, notifyListener s1 .PLAYBACK_COMPLETE)
    else .ok (s1, [])
  | .rendererFlushComplete _ => .ok (s, [])
  | .moreDataQueued => .ok (s, [])
  | .reset =>
    if s.mFlushingAudio ≠ .NONE ∨ s.mFlushingVideo ≠ .NONE then
      .ok ({ s with mResetPostponed := true }, [])
    else if s.mAudioDecoder = false ∧ s.mVideoDecoder = false then
      finishReset s
    else
      match (if s.mAudioDecoder then flushDecoder true true s else .ok (s, [])) with
      | .error f => .error f
      | .ok (s1, ev1) =>
        match (if s1.mVideoDecoder then flushDecoder false true s1 else .ok (s1, [])) with
        | .error f => .error f
        | .ok (s2, ev2) =>
          .ok ({ s2 with mResetInProgress := true }, ev1 ++ ev2)

/-! ## The dispatch system

The looper dispatches one message at a time (single-threaded cooperative
loop, spec section 5). The system state is the controller state together
with the multiset of unconsumed self-posted ScanSources messages
(represented by the generations they carry) and a log of all events so
far. ScanSources messages can only be dispatched from that queue; every
other message is injected by the environment, with one protocol
constraint taken from the spec: a decoder notification is dispatched
only while that decoder handle is live (spec sections 5 and 9 treat
delivery after the handle is cleared as unreachable). -/

/-- Generations of the ScanSources messages posted by the events of one
handler run. -/
def scanPostsOf (ev : List Event) : List Nat :=
  ev.filterMap fun e =>
    match e with
    | .postScan g _ => some g
    | _ => none

/-- The decoder a message originates from, when it is a decoder
notification (kWhatAudioNotify / kWhatVideoNotify codec requests). -/
def decoderOrigin (m : Msg) : Option Bool :=
  match m with
  | .fillThisBuffer a _ _ => some a
  | .decoderEOS a => some a
  | .flushCompleted a => some a
  | .outputFormatChanged a _ _ _ => some a
  | .shutdownCompleted a => some a
  | .drainThisBuffer a => some a
  | _ => none

/-- Modelled from the spec: a decoder notification is dispatched only
while the corresponding decoder handle is live (sections 5 and 9; the
source file contains no code for this, it is a property of the
collaborators outside src/). Every other message is unconstrained. -/
def decoderLive (s : NPState) (m : Msg) : Bool :=
  match decoderOrigin m with
  | some a => s.decoderOf a
  | none => true

/-- Whether a message is a ScanSources message. -/
def Msg.isScanMsg (m : Msg) : Bool :=
  match m with
  | .scanSources _ _ _ _ => true
  | _ => false

/-- The system: controller state, queued ScanSources generations, and the
log of all events emitted so far. -/
structure Sys where
  st : NPState
  scans : List Nat
  log : List Event
deriving DecidableEq, Repr

/-- One dispatch of the message loop: pick a queued ScanSources message
(its oracle payload chosen by the environment), or inject any non-scan
message satisfying the decoder liveness constraint. Faulting handler runs
abort the process and have no successor. -/
inductive SysStep : Sys → Sys → Prop
  | scanDispatch (sys : Sys) (i : Nat) (h : i < sys.scans.length)
      (vf af fm : Bool) (st' : NPState) (ev : List Event) :
      onMessageReceived sys.st (.scanSources (sys.scans.get ⟨i, h⟩) vf af fm) =
        .ok (st', ev) →
      SysStep sys ⟨st', sys.scans.eraseIdx i ++ scanPostsOf ev, sys.log ++ ev⟩
  | envDispatch (sys : Sys) (m : Msg) (st' : NPState) (ev : List Event) :
      m.isScanMsg = false → decoderLive sys.st m = true →
      onMessageReceived sys.st m = .ok (st', ev) →
      SysStep sys ⟨st', sys.scans ++ scanPostsOf ev, sys.log ++ ev⟩

/-- The initial system: freshly constructed player, empty queue and log. -/
def initSys : Sys := ⟨initState, [], []⟩

/-- A system state reachable from the initial one by dispatching
messages. -/
def Reachable (sys : Sys) : Prop :=
  Relation.ReflTransGen SysStep initSys sys

/-- A concrete dispatch choice for the executable runner: dispatch the
queued scan at an index (with oracle payload), or inject an environment
message. -/
inductive Choice
  | fromQueue (i : Nat) (vf af fm : Bool)
  | fromEnv (m : Msg)
deriving Repr

/-- Executable single dispatch, mirroring SysStep. -/
def dispatchOne (sys : Sys) : Choice → Option Sys
  | .fromQueue i vf af fm =>
    if h : i < sys.scans.length then
      match onMessageReceived sys.st (.scanSources (sys.scans.get ⟨i, h⟩) vf af fm) with
      | .ok (st', ev) => some ⟨st', sys.scans.eraseIdx i ++ scanPostsOf ev, sys.log ++ ev⟩
      | .error _ => none
    else none
  | .fromEnv m =>
    if m.isScanMsg then none
    else if decoderLive sys.st m then
      match onMessageReceived sys.st m with
      | .ok (st', ev) => some ⟨st', sys.scans ++ scanPostsOf ev, sys.log ++ ev⟩
      | .error _ => none
    else none

/-- Executable multi-step runner. -/
def runSys (sys : Sys) : List Choice → Option Sys
  | [] => some sys
  | c :: cs =>
    match dispatchOne sys c with
    | some sys' => runSys sys' cs
    | none => none

/-! ## Predicates and concrete systems used by the claims -/

/-- Both tracks are quiescent: FLUSHED or SHUT_DOWN, the condition under
which finishFlushIfPossible proceeds past its two early returns. -/
def Quiescent (s : NPState) : Prop :=
  (s.mFlushingAudio = .FLUSHED ∨ s.mFlushingAudio = .SHUT_DOWN) ∧
  (s.mFlushingVideo = .FLUSHED ∨ s.mFlushingVideo = .SHUT_DOWN)

instance (s : NPState) : Decidable (Quiescent s) := by
  unfold Quiescent
  infer_instance

/-- Scan queue invariant: at most one unconsumed ScanSources message is
queued, and whenever one is queued the pending flag is set. -/
def ScanQueueInv (sys : Sys) : Prop :=
  sys.scans.length ≤ 1 ∧ ∀ g ∈ sys.scans, sys.st.mScanSourcesPending = true

/-- Decoder liveness invariant: a track whose status is FLUSHING_DECODER,
FLUSHING_DECODER_SHUTDOWN or SHUTTING_DOWN_DECODER has a live decoder. -/
def DecoderInv (s : NPState) : Prop :=
  ((s.mFlushingAudio = .FLUSHING_DECODER ∨
    s.mFlushingAudio = .FLUSHING_DECODER_SHUTDOWN ∨
    s.mFlushingAudio = .SHUTTING_DOWN_DECODER) → s.mAudioDecoder = true) ∧
  ((s.mFlushingVideo = .FLUSHING_DECODER ∨
    s.mFlushingVideo = .FLUSHING_DECODER_SHUTDOWN ∨
    s.mFlushingVideo = .SHUTTING_DOWN_DECODER) → s.mVideoDecoder = true)

instance (s : NPState) : Decidable (DecoderInv s) := by
  unfold DecoderInv
  infer_instance

/-- A state whose audio track is in AWAITING_DISCONTINUITY, a non-NONE
status for which IsFlushingState is nevertheless false. -/
def sC1 : NPState :=
  { initState with
    mSource := true, mRenderer := true,
    mAudioDecoder := true, mFlushingAudio := .AWAITING_DISCONTINUITY }

/-- A quiescent state with a reset in progress and a further reset
postponed: both tracks were shut down by a reset flush and a second
Reset message arrived while that flush was running. -/
def sC3 : NPState :=
  { initState with
    mSource := true, mRenderer := true, mListener := true,
    mFlushingAudio := .SHUT_DOWN, mFlushingVideo := .SHUT_DOWN,
    mResetInProgress := true, mResetPostponed := true }

/-- A quiescent state with the audio track shut down while a stale scan
is still marked pending (a flush started while a scan message was in the
queue; the generation bump does not clear the pending flag). -/
def sC5 : NPState :=
  { initState with
    mSource := true, mRenderer := true,
    mScanSourcesPending := true,
    mFlushingAudio := .SHUT_DOWN, mFlushingVideo := .FLUSHED }

/-- Dispatch trace: start playback with no listener, create the audio
decoder from the first scan (which re-posts itself), then receive a
format-change discontinuity while feeding the audio decoder. The flush
bumps the generation but neither clears the pending flag nor removes the
queued stale scan message. -/
def trC9 : List Choice :=
  [ .fromEnv .setDataSource, .fromEnv .setAudioSink, .fromEnv .start,
    .fromQueue 0 false true true,
    .fromEnv (.fillThisBuffer true (.discontinuity true) false) ]

/-- The system reached by trC9. -/
def sysC9 : Sys := (runSys initSys trC9).getD initSys

/-- Dispatch trace: start playback with a listener and no decoders, then
receive two renderer EOS notifications for the audio track within the
same epoch. -/
def trC4 : List Choice :=
  [ .fromEnv .setListener, .fromEnv .setDataSource, .fromEnv .start,
    .fromEnv (.rendererEOS true), .fromEnv (.rendererEOS true) ]

/-- The system reached by trC4. -/
def sysC4 : Sys := (runSys initSys trC4).getD initSys

theorem dispatchOne_sysStep {sys sys' : Sys} {c : Choice}
    (h : dispatchOne sys c = some sys') : SysStep sys sys' := by
  cases c with
  | fromQueue i vf af fm =>
    simp only [dispatchOne] at h
    split at h
    · split at h
      · rename_i st' ev heq
        cases h
        exact SysStep.scanDispatch sys i (by assumption) vf af fm st' ev heq
      · exact absurd h (by simp)
    · exact absurd h (by simp)
  | fromEnv m =>
    simp only [dispatchOne] at h
    split at h
    · exact absurd h (by simp)
    · rename_i hscan
      split at h
      · rename_i hlive
        split at h
        · rename_i st' ev heq
          cases h
          exact SysStep.envDispatch sys m st' ev (by simpa using hscan) hlive heq
        · exact absurd h (by simp)
      · exact absurd h (by simp)

theorem runSys_reflTrans {sys sys' : Sys} {tr : List Choice}
    (h : runSys sys tr = some sys') : Relation.ReflTransGen SysStep sys sys' := by
  induction tr generalizing sys with
  | nil =>
    simp only [runSys] at h
    cases h
    exact Relation.ReflTransGen.refl
  | cons c cs ih =>
    simp only [runSys] at h
    split at h
    · rename_i sys1 heq
      exact Relation.ReflTransGen.head (dispatchOne_sysStep heq) (ih h)
    · exact absurd h (by simp)

theorem runSys_reachable (tr : List Choice) {sys' : Sys}
    (h : runSys initSys tr = some sys') : Reachable sys' :=
  runSys_reflTrans h

/-! ## Characterization lemmas for the internal transitions -/

theorem flushDecoder_ok_spec {audio needShutdown : Bool} {s s' : NPState}
    {ev : List Event}
    (h : flushDecoder audio needShutdown s = .ok (s', ev)) :
    ev = [.signalFlush audio, .rendererFlush audio] ∧
    s.decoderOf audio = true ∧
    (s.flushingOf audio = .NONE ∨ s.flushingOf audio = .AWAITING_DISCONTINUITY) ∧
    s'.mAudioDecoder = s.mAudioDecoder ∧ s'.mVideoDecoder = s.mVideoDecoder ∧
    s'.mScanSourcesPending = s.mScanSourcesPending ∧
    s'.mScanSourcesGeneration = (s.mScanSourcesGeneration + 1) % 4294967296 ∧
    s'.mResetInProgress = s.mResetInProgress ∧
    s'.mResetPostponed = s.mResetPostponed ∧
    s'.mListener = s.mListener ∧
    s'.mRenderer = s.mRenderer ∧ s'.mSource = s.mSource ∧
    s'.flushingOf audio =
      (if needShutdown then .FLUSHING_DECODER_SHUTDOWN else .FLUSHING_DECODER) ∧
    (s.flushingOf (!audio) = .NONE →
      s'.flushingOf (!audio) =
        (if s.decoderOf (!audio) then .AWAITING_DISCONTINUITY else .FLUSHED)) ∧
    (s.flushingOf (!audio) ≠ .NONE →
      s'.flushingOf (!audio) = s.flushingOf (!audio)) := by
  cases audio <;>
    (simp only [flushDecoder, NPState.decoderOf, NPState.flushingOf,
      Bool.not_true, Bool.not_false, if_true, if_false] at h ⊢ <;>
     split_ifs at h with h1 h2 h3 <;>
     simp_all [Except.ok.injEq, Prod.mk.injEq] <;>
     obtain ⟨rfl, rfl⟩ := h <;> simp_all)

theorem scanPostsOf_append (a b : List Event) :
    scanPostsOf (a ++ b) = scanPostsOf a ++ scanPostsOf b := by
  simp [scanPostsOf]

theorem scanPostsOf_notifyListener (s : NPState) (c : NotifyCode) :
    scanPostsOf (notifyListener s c) = [] := by
  unfold notifyListener
  split <;> rfl

theorem count_notifyListener (s : NPState) (c c' : NotifyCode) :
    (notifyListener s c).count (Event.sendEvent c') ≤ 1 := by
  unfold notifyListener
  split
  · simp [List.count_cons]
    split <;> simp
  · simp

theorem count_notifyListener_zero (s : NPState) :
    (notifyListener s .RESET_COMPLETE).count
      (Event.sendEvent .PLAYBACK_COMPLETE) = 0 := by
  unfold notifyListener
  split <;> rfl

theorem finishReset_ok_spec {s s' : NPState} {ev : List Event}
    (h : finishReset s = .ok (s', ev)) :
    s.mAudioDecoder = false ∧ s.mVideoDecoder = false ∧
    s' = { s with mRenderer := false, mSource := false } ∧
    ev = notifyListener s .RESET_COMPLETE := by
  unfold finishReset at h
  split_ifs at h with h1
  simp only [not_or, Bool.not_eq_true] at h1
  refine ⟨h1.1, h1.2, ?_, ?_⟩ <;> simp_all

theorem finishReset_error {s : NPState} {f : Fault}
    (h : finishReset s = .error f) : f = .checkFail := by
  unfold finishReset at h
  split_ifs at h
  cases h
  rfl

theorem postScanSources_pending (s : NPState)
    (h : s.mScanSourcesPending = true) : postScanSources s = (s, []) := by
  simp [postScanSources, h]

theorem postScanSources_not_pending (s : NPState)
    (h : s.mScanSourcesPending = false) :
    postScanSources s =
      ({ s with mScanSourcesPending := true },
       [.postScan s.mScanSourcesGeneration false]) := by
  simp [postScanSources, h]

theorem fffp_ok_spec {s s' : NPState} {ev : List Event}
    (h : finishFlushIfPossible s = .ok (s', ev)) :
    s'.mAudioDecoder = s.mAudioDecoder ∧ s'.mVideoDecoder = s.mVideoDecoder ∧
    s'.mScanSourcesGeneration = s.mScanSourcesGeneration ∧
    (s'.mFlushingAudio = s.mFlushingAudio ∨ s'.mFlushingAudio = .NONE) ∧
    (s'.mFlushingVideo = s.mFlushingVideo ∨ s'.mFlushingVideo = .NONE) ∧
    ev.count (Event.sendEvent .PLAYBACK_COMPLETE) = 0 ∧
    ((scanPostsOf ev = [] ∧ s'.mScanSourcesPending = s.mScanSourcesPending) ∨
     (s.mScanSourcesPending = false ∧
      scanPostsOf ev = [s.mScanSourcesGeneration] ∧
      s'.mScanSourcesPending = true)) := by
  unfold finishFlushIfPossible at h
  by_cases hA : s.mFlushingAudio ≠ .FLUSHED ∧ s.mFlushingAudio ≠ .SHUT_DOWN
  · rw [if_pos hA] at h
    simp only [Except.ok.injEq, Prod.mk.injEq] at h
    obtain ⟨rfl, rfl⟩ := h
    simp [scanPostsOf]
  · rw [if_neg hA] at h
    by_cases hV : s.mFlushingVideo ≠ .FLUSHED ∧ s.mFlushingVideo ≠ .SHUT_DOWN
    · rw [if_pos hV] at h
      simp only [Except.ok.injEq, Prod.mk.injEq] at h
      obtain ⟨rfl, rfl⟩ := h
      simp [scanPostsOf]
    · rw [if_neg hV] at h
      simp only at h
      have hposts0 :
          scanPostsOf (Event.signalTimeDiscontinuity ::
            ((if s.mFlushingAudio = .SHUT_DOWN then []
              else if s.mAudioDecoder then [Event.signalResume true] else []) ++
             (if s.mFlushingVideo = .SHUT_DOWN then []
              else if s.mVideoDecoder then [Event.signalResume false] else []))) =
            [] := by
        split_ifs <;> rfl
      have hcount0 :
          (Event.signalTimeDiscontinuity ::
            ((if s.mFlushingAudio = .SHUT_DOWN then []
              else if s.mAudioDecoder then [Event.signalResume true] else []) ++
             (if s.mFlushingVideo = .SHUT_DOWN then []
              else if s.mVideoDecoder then [Event.signalResume false] else []))).count
            (Event.sendEvent .PLAYBACK_COMPLETE) = 0 := by
        split_ifs <;> rfl
      set ev0 := Event.signalTimeDiscontinuity ::
            ((if s.mFlushingAudio = .SHUT_DOWN then []
              else if s.mAudioDecoder then [Event.signalResume true] else []) ++
             (if s.mFlushingVideo = .SHUT_DOWN then []
              else if s.mVideoDecoder then [Event.signalResume false] else [])) with hev0
      by_cases hRIP : s.mResetInProgress = true

      · rw [if_pos hRIP] at h
        cases hfr : finishReset { s with
            mFlushingAudio := .NONE, mFlushingVideo := .NONE,
            mResetInProgress := false } with
        | error f =>
          rw [hfr] at h
          simp at h
        | ok p =>
          obtain ⟨s2, ev2⟩ := p
          rw [hfr] at h
          simp only [Except.ok.injEq, Prod.mk.injEq] at h
          obtain ⟨rfl, rfl⟩ := h
          obtain ⟨hd1, hd2, rfl, rfl⟩ := finishReset_ok_spec hfr
          refine ⟨by simp, by simp, by simp, by simp, by simp, ?_, ?_⟩
          · rw [List.count_append, hcount0, count_notifyListener_zero]
          · left
            constructor
            · rw [scanPostsOf_append, hposts0, scanPostsOf_notifyListener]
              rfl
            · simp
      · rw [if_neg hRIP] at h
        by_cases hRP : s.mResetPostponed = true
        · rw [if_pos hRP] at h
          simp only [Except.ok.injEq, Prod.mk.injEq] at h
          obtain ⟨rfl, rfl⟩ := h
          refine ⟨by simp, by simp, by simp, by simp, by simp, ?_, ?_⟩
          · simp [List.count_append, hcount0]
          · left
            constructor
            · rw [scanPostsOf_append, hposts0]; rfl
            · simp
        · rw [if_neg hRP] at h
          by_cases hScan : (s.mFlushingAudio = .SHUT_DOWN ∨ s.mFlushingVideo = .SHUT_DOWN)
          · rw [if_pos hScan] at h
            by_cases hPend : s.mScanSourcesPending = true
            · rw [postScanSources_pending _ (by simpa using hPend)] at h
              simp only [Except.ok.injEq, Prod.mk.injEq] at h
              obtain ⟨rfl, rfl⟩ := h
              refine ⟨by simp, by simp, by simp, by simp, by simp, ?_, ?_⟩
              · simp [List.count_append, hcount0]
              · left
                constructor
                · rw [scanPostsOf_append, hposts0]; rfl
                · simp
            · rw [postScanSources_not_pending _ (by simpa using hPend)] at h
              simp only [Except.ok.injEq, Prod.mk.injEq] at h
              obtain ⟨rfl, rfl⟩ := h
              refine ⟨by simp, by simp, by simp, by simp, by simp, ?_, ?_⟩
              · simp [List.count_append, hcount0]
              · right
                refine ⟨by simpa using hPend, ?_, by simp⟩
                rw [scanPostsOf_append, hposts0]
                rfl
          · rw [if_neg hScan] at h
            simp only [Except.ok.injEq, Prod.mk.injEq] at h
            obtain ⟨rfl, rfl⟩ := h
            exact ⟨by simp, by simp, by simp, by simp, by simp,
              by simp [hcount0], Or.inl ⟨by simp [hposts0], by simp⟩⟩

theorem fffp_error {s : NPState} {f : Fault}
    (h : finishFlushIfPossible s = .error f) : f = .checkFail := by
  unfold finishFlushIfPossible at h
  by_cases hA : s.mFlushingAudio ≠ .FLUSHED ∧ s.mFlushingAudio ≠ .SHUT_DOWN
  · rw [if_pos hA] at h
    cases h
  · rw [if_neg hA] at h
    by_cases hV : s.mFlushingVideo ≠ .FLUSHED ∧ s.mFlushingVideo ≠ .SHUT_DOWN
    · rw [if_pos hV] at h
      cases h
    · rw [if_neg hV] at h
      simp only at h
      by_cases hRIP : s.mResetInProgress = true
      · rw [if_pos hRIP] at h
        cases hfr : finishReset { s with
            mFlushingAudio := .NONE, mFlushingVideo := .NONE,
            mResetInProgress := false } with
        | error f2 =>
          rw [hfr] at h
          simp only [Except.error.injEq] at h
          rw [← h]
          exact finishReset_error hfr
        | ok p =>
          obtain ⟨s2, ev2⟩ := p
          rw [hfr] at h
          simp at h
      · rw [if_neg hRIP] at h
        by_cases hRP : s.mResetPostponed = true
        · rw [if_pos hRP] at h
          cases h
        · rw [if_neg hRP] at h
          by_cases hScan :
              (s.mFlushingAudio = .SHUT_DOWN ∨ s.mFlushingVideo = .SHUT_DOWN)
          · rw [if_pos hScan] at h
            cases hps : postScanSources { s with
                mFlushingAudio := .NONE, mFlushingVideo := .NONE } with
            | mk s2 ev2 =>
              rw [hps] at h
              simp at h
          · rw [if_neg hScan] at h
            cases h

theorem postScanSources_state (s : NPState) :
    (postScanSources s).1 = s ∨
    (postScanSources s).1 = { s with mScanSourcesPending := true } := by
  unfold postScanSources
  split
  · left; rfl
  · right; rfl

theorem instantiateDecoder_spec (audio hasFormat : Bool) (s : NPState) :
    (instantiateDecoder audio hasFormat s).1.mFlushingAudio = s.mFlushingAudio ∧
    (instantiateDecoder audio hasFormat s).1.mFlushingVideo = s.mFlushingVideo ∧
    (instantiateDecoder audio hasFormat s).1.mScanSourcesGeneration =
      s.mScanSourcesGeneration ∧
    (instantiateDecoder audio hasFormat s).1.mScanSourcesPending =
      s.mScanSourcesPending ∧
    (instantiateDecoder audio hasFormat s).1.mAudioSink = s.mAudioSink ∧
    (instantiateDecoder audio hasFormat s).1.mListener = s.mListener ∧
    (s.mAudioDecoder = true →
      (instantiateDecoder audio hasFormat s).1.mAudioDecoder = true) ∧
    (s.mVideoDecoder = true →
      (instantiateDecoder audio hasFormat s).1.mVideoDecoder = true) ∧
    scanPostsOf (instantiateDecoder audio hasFormat s).2 = [] ∧
    (instantiateDecoder audio hasFormat s).2.count
      (Event.sendEvent .PLAYBACK_COMPLETE) = 0 := by
  unfold instantiateDecoder NPState.decoderOf
  cases audio <;> split_ifs <;> simp_all [scanPostsOf]

theorem flushDecoder_not_nullDeref {audio ns : Bool} {s : NPState}
    (hdec : s.decoderOf audio = true) :
    flushDecoder audio ns s ≠ .error .nullDeref := by
  intro h
  unfold flushDecoder at h
  unfold NPState.decoderOf at hdec
  cases audio <;> split_ifs at h <;> simp_all
  all_goals (split_ifs at h <;> simp_all)

theorem feed_ok_spec {audio : Bool} {dq : DequeueResult} {s s' : NPState}
    {ev : List Event} {wb : Bool}
    (h : feedDecoderInputData audio dq s = .ok (s', ev, wb)) :
    scanPostsOf ev = [] ∧
    ev.count (Event.sendEvent .PLAYBACK_COMPLETE) = 0 ∧
    s'.mScanSourcesPending = s.mScanSourcesPending ∧
    (s' = s ∨ ∃ (fc : Bool) (ev1 : List Event),
      flushDecoder audio fc s = .ok (s', ev1)) := by
  unfold feedDecoderInputData at h
  split_ifs at h with h1
  · simp only [Except.ok.injEq, Prod.mk.injEq] at h
    obtain ⟨rfl, rfl, rfl⟩ := h
    exact ⟨rfl, rfl, rfl, Or.inl rfl⟩
  · cases dq with
    | ok =>
      simp only [Except.ok.injEq, Prod.mk.injEq] at h
      obtain ⟨rfl, rfl, rfl⟩ := h
      exact ⟨rfl, rfl, rfl, Or.inl rfl⟩
    | wouldBlock =>
      simp only [Except.ok.injEq, Prod.mk.injEq] at h
      obtain ⟨rfl, rfl, rfl⟩ := h
      exact ⟨rfl, rfl, rfl, Or.inl rfl⟩
    | otherError =>
      simp only [Except.ok.injEq, Prod.mk.injEq] at h
      obtain ⟨rfl, rfl, rfl⟩ := h
      exact ⟨rfl, rfl, rfl, Or.inl rfl⟩
    | discontinuity fc =>
      dsimp only at h
      cases hfd : flushDecoder audio fc s with
      | error f =>
        rw [hfd] at h
        simp at h
      | ok p =>
        obtain ⟨s1, ev1⟩ := p
        rw [hfd] at h
        simp only [Except.ok.injEq, Prod.mk.injEq] at h
        obtain ⟨rfl, rfl, rfl⟩ := h
        obtain ⟨hev, _, _, _, _, hpend, _⟩ := flushDecoder_ok_spec hfd
        subst hev
        exact ⟨rfl, rfl, hpend, Or.inr ⟨fc, _, hfd⟩⟩

theorem flushDecoder_DecInv {audio ns : Bool} {s s' : NPState} {ev : List Event}
    (hI : DecoderInv s) (h : flushDecoder audio ns s = .ok (s', ev)) :
    DecoderInv s' := by
  obtain ⟨-, hdec, -, hda, hdv, -, -, -, -, -, -, -, hfl, hpeer1, hpeer2⟩ :=
    flushDecoder_ok_spec h
  cases audio with
  | true =>
    simp [NPState.flushingOf, NPState.decoderOf] at hdec hfl hpeer1 hpeer2
    constructor
    · intro _
      rw [hda]
      exact hdec
    · intro hbad
      by_cases hpn : s.mFlushingVideo = .NONE
      · have := hpeer1 hpn
        split_ifs at this <;> rw [this] at hbad <;> simp at hbad
      · have := hpeer2 hpn
        rw [this] at hbad
        rw [hdv]
        exact hI.2 hbad
  | false =>
    simp [NPState.flushingOf, NPState.decoderOf] at hdec hfl hpeer1 hpeer2
    constructor
    · intro hbad
      by_cases hpn : s.mFlushingAudio = .NONE
      · have := hpeer1 hpn
        split_ifs at this <;> rw [this] at hbad <;> simp at hbad
      · have := hpeer2 hpn
        rw [this] at hbad
        rw [hda]
        exact hI.1 hbad
    · intro _
      rw [hdv]
      exact hdec

theorem fffp_DecInv {s s' : NPState} {ev : List Event}
    (hI : DecoderInv s) (h : finishFlushIfPossible s = .ok (s', ev)) :
    DecoderInv s' := by
  obtain ⟨hda, hdv, -, hfa, hfv, -, -⟩ := fffp_ok_spec h
  constructor
  · intro hbad
    rw [hda]
    cases hfa with
    | inl heq =>
      rw [heq] at hbad
      exact hI.1 hbad
    | inr hn =>
      rw [hn] at hbad
      rcases hbad with hb | hb | hb <;> cases hb
  · intro hbad
    rw [hdv]
    cases hfv with
    | inl heq =>
      rw [heq] at hbad
      exact hI.2 hbad
    | inr hn =>
      rw [hn] at hbad
      rcases hbad with hb | hb | hb <;> cases hb

theorem DecoderInv_statuses {s t : NPState}
    (hI : DecoderInv s)
    (hfa : t.mFlushingAudio = s.mFlushingAudio)
    (hfv : t.mFlushingVideo = s.mFlushingVideo)
    (hda : s.mAudioDecoder = true → t.mAudioDecoder = true)
    (hdv : s.mVideoDecoder = true → t.mVideoDecoder = true) :
    DecoderInv t := by
  constructor
  · intro hbad
    rw [hfa] at hbad
    exact hda (hI.1 hbad)
  · intro hbad
    rw [hfv] at hbad
    exact hdv (hI.2 hbad)

theorem scanStep_spec {s : NPState} {g : Nat} {vf af fm : Bool}
    {s' : NPState} {ev : List Event}
    (h : onMessageReceived s (.scanSources g vf af fm) = .ok (s', ev)) :
    (scanPostsOf ev = [] ∨
      (scanPostsOf ev = [g] ∧ s'.mScanSourcesPending = true)) ∧
    ev.count (Event.sendEvent .PLAYBACK_COMPLETE) ≤ 1 ∧
    (DecoderInv s → DecoderInv s') := by
  simp only [onMessageReceived] at h
  by_cases hg : g ≠ s.mScanSourcesGeneration
  · rw [if_pos hg] at h
    simp only [Except.ok.injEq, Prod.mk.injEq] at h
    obtain ⟨rfl, rfl⟩ := h
    exact ⟨Or.inl rfl, by simp, fun hI => hI⟩
  · rw [if_neg hg] at h
    cases hID2 : instantiateDecoder false vf { s with mScanSourcesPending := false } with
    | mk s2 ev2 =>
      have h2 := instantiateDecoder_spec false vf { s with mScanSourcesPending := false }
      rw [hID2] at h2
      obtain ⟨h2fa, h2fv, -, h2p, h2sink, h2l, h2da, h2dv, h2posts, h2cnt⟩ := h2
      rw [hID2] at h
      dsimp only at h
      have hs3 : ∃ s3 ev3,
          (if s2.mAudioSink = true then instantiateDecoder true af s2 else (s2, [])) =
            (s3, ev3) ∧
          s3.mFlushingAudio = s2.mFlushingAudio ∧
          s3.mFlushingVideo = s2.mFlushingVideo ∧
          s3.mScanSourcesPending = s2.mScanSourcesPending ∧
          s3.mListener = s2.mListener ∧
          (s2.mAudioDecoder = true → s3.mAudioDecoder = true) ∧
          (s2.mVideoDecoder = true → s3.mVideoDecoder = true) ∧
          scanPostsOf ev3 = [] ∧
          ev3.count (Event.sendEvent .PLAYBACK_COMPLETE) = 0 := by
        by_cases hsink : s2.mAudioSink = true
        · rw [if_pos hsink]
          have h3 := instantiateDecoder_spec true af s2
          exact ⟨_, _, rfl, h3.1, h3.2.1, h3.2.2.2.1, h3.2.2.2.2.2.1,
            h3.2.2.2.2.2.2.1, h3.2.2.2.2.2.2.2.1, h3.2.2.2.2.2.2.2.2.1,
            h3.2.2.2.2.2.2.2.2.2⟩
        · rw [if_neg hsink]
          exact ⟨s2, [], rfl, rfl, rfl, rfl, rfl, fun x => x, fun x => x, rfl, rfl⟩
      obtain ⟨s3, ev3, hID3, h3fa, h3fv, h3p, h3l, h3da, h3dv, h3posts, h3cnt⟩ := hs3
      rw [hID3] at h
      dsimp only at h
      have hDec : DecoderInv s → DecoderInv s3 := by
        intro hI
        refine DecoderInv_statuses hI ?_ ?_ ?_ ?_
        · rw [h3fa, h2fa]
        · rw [h3fv, h2fv]
        · intro hx
          exact h3da (h2da (by simpa using hx))
        · intro hx
          exact h3dv (h2dv (by simpa using hx))
      by_cases hfm : fm = false
      · rw [if_pos hfm] at h
        by_cases hnone : s3.mAudioDecoder = false ∧ s3.mVideoDecoder = false
        · rw [if_pos hnone] at h
          simp only [Except.ok.injEq, Prod.mk.injEq] at h
          obtain ⟨rfl, rfl⟩ := h
          refine ⟨Or.inl ?_, ?_, hDec⟩
          · simp only [scanPostsOf_append, h2posts, h3posts,
              scanPostsOf_notifyListener]
            rfl
          · simp only [List.count_append, h2cnt, h3cnt]
            have := count_notifyListener s3 .PLAYBACK_COMPLETE .PLAYBACK_COMPLETE
            simp [scanPostsOf]
            omega
        · rw [if_neg hnone] at h
          simp only [Except.ok.injEq, Prod.mk.injEq] at h
          obtain ⟨rfl, rfl⟩ := h
          refine ⟨Or.inl ?_, ?_, hDec⟩
          · simp only [scanPostsOf_append, h2posts, h3posts]
            rfl
          · simp only [List.count_append, h2cnt, h3cnt]
            simp [scanPostsOf]
      · rw [if_neg hfm] at h
        by_cases hone : s3.mAudioDecoder = false ∨ s3.mVideoDecoder = false
        · rw [if_pos hone] at h
          simp only [Except.ok.injEq, Prod.mk.injEq] at h
          obtain ⟨rfl, rfl⟩ := h
          refine ⟨Or.inr ⟨?_, rfl⟩, ?_, ?_⟩
          · simp only [scanPostsOf_append, h2posts, h3posts]
            rfl
          · simp only [List.count_append, h2cnt, h3cnt]
            simp [scanPostsOf]
          · intro hI
            have := hDec hI
            refine DecoderInv_statuses this (by simp) (by simp)
              (fun x => by simpa using x) (fun x => by simpa using x)
        · rw [if_neg hone] at h
          simp only [Except.ok.injEq, Prod.mk.injEq] at h
          obtain ⟨rfl, rfl⟩ := h
          refine ⟨Or.inl ?_, ?_, hDec⟩
          · simp only [scanPostsOf_append, h2posts, h3posts]
            rfl
          · simp only [List.count_append, h2cnt, h3cnt]
            simp [scanPostsOf]

/-- The conclusion shared by the per-message dispatch lemmas: scan posts
are empty unless the pending flag was clear and became set with a single
post of the current generation, at most one PLAYBACK_COMPLETE is sent,
and the decoder liveness invariant is preserved. -/
def StepConcl (s s' : NPState) (ev : List Event) : Prop :=
  ((scanPostsOf ev = [] ∧ s'.mScanSourcesPending = s.mScanSourcesPending) ∨
   (s.mScanSourcesPending = false ∧
    scanPostsOf ev = [s.mScanSourcesGeneration] ∧
    s'.mScanSourcesPending = true)) ∧
  ev.count (Event.sendEvent .PLAYBACK_COMPLETE) ≤ 1 ∧
  (DecoderInv s → DecoderInv s')

theorem fffp_stepConcl {s t s' : NPState} {ev : List Event}
    (hff : finishFlushIfPossible t = .ok (s', ev))
    (hp : t.mScanSourcesPending = s.mScanSourcesPending)
    (hg : t.mScanSourcesGeneration = s.mScanSourcesGeneration)
    (hI : DecoderInv s → DecoderInv t) :
    StepConcl s s' ev := by
  obtain ⟨-, -, -, -, -, hcnt, hposts⟩ := fffp_ok_spec hff
  refine ⟨?_, by simp [hcnt], fun hd => fffp_DecInv (hI hd) hff⟩
  rcases hposts with ⟨p1, p2⟩ | ⟨q1, q2, q3⟩
  · exact Or.inl ⟨p1, by rw [p2, hp]⟩
  · exact Or.inr ⟨by rw [← hp]; exact q1, by rw [q2, hg], q3⟩

theorem fffp_stepConcl_cons {s t s' : NPState} {ev : List Event} {audio : Bool}
    (hff : finishFlushIfPossible t = .ok (s', ev))
    (hp : t.mScanSourcesPending = s.mScanSourcesPending)
    (hg : t.mScanSourcesGeneration = s.mScanSourcesGeneration)
    (hI : DecoderInv s → DecoderInv t) :
    StepConcl s s' (Event.initiateShutdown audio :: ev) := by
  obtain ⟨hA, hB, hC⟩ := fffp_stepConcl hff hp hg hI
  refine ⟨?_, ?_, hC⟩
  · have hred : scanPostsOf (Event.initiateShutdown audio :: ev) =
        scanPostsOf ev := rfl
    rw [hred]
    exact hA
  · simpa [List.count_cons] using hB

theorem flushCompleted_step_spec {s : NPState} {audio : Bool}
    {s' : NPState} {ev : List Event}
    (h : onMessageReceived s (.flushCompleted audio) = .ok (s', ev)) :
    StepConcl s s' ev := by
  simp only [onMessageReceived] at h
  cases audio with
  | false =>
    simp only [NPState.flushingOf, NPState.decoderOf, Bool.false_eq_true,
      Bool.true_eq_false, eq_self_iff_true, ↓reduceIte] at h
    cases hst : s.mFlushingVideo with
    | FLUSHING_DECODER =>
      rw [hst] at h
      simp only [IsFlushingStateNS, Bool.false_eq_true,
      Bool.true_eq_false, eq_self_iff_true, ↓reduceIte] at h
      refine fffp_stepConcl h (by simp) (by simp) ?_
      intro hI
      constructor
      · intro hbad
        show s.mAudioDecoder = true
        exact hI.1 (by simpa using hbad)
      · intro hbad
        simp at hbad
    | FLUSHING_DECODER_SHUTDOWN =>
      rw [hst] at h
      simp only [IsFlushingStateNS, Bool.false_eq_true,
      Bool.true_eq_false, eq_self_iff_true, ↓reduceIte] at h
      by_cases h3 : s.mVideoDecoder = false
      · rw [if_pos h3] at h
        cases h
      · rw [if_neg h3] at h
        cases hff : finishFlushIfPossible
            { s with mFlushingVideo := .SHUTTING_DOWN_DECODER } with
        | error f =>
          rw [hff] at h
          simp at h
        | ok p =>
          obtain ⟨s3, ev3⟩ := p
          rw [hff] at h
          simp only [Except.ok.injEq, Prod.mk.injEq] at h
          obtain ⟨rfl, rfl⟩ := h
          refine fffp_stepConcl_cons hff (by simp) (by simp) ?_
          intro hI
          constructor
          · intro hbad
            show s.mAudioDecoder = true
            exact hI.1 (by simpa using hbad)
          · intro hbad
            show s.mVideoDecoder = true
            simpa using h3
    | NONE =>
      rw [hst] at h
      simp [IsFlushingStateNS] at h
    | AWAITING_DISCONTINUITY =>
      rw [hst] at h
      simp [IsFlushingStateNS] at h
    | SHUTTING_DOWN_DECODER =>
      rw [hst] at h
      simp [IsFlushingStateNS] at h
    | FLUSHED =>
      rw [hst] at h
      simp [IsFlushingStateNS] at h
    | SHUT_DOWN =>
      rw [hst] at h
      simp [IsFlushingStateNS] at h
  | true =>
    simp only [NPState.flushingOf, NPState.decoderOf, Bool.false_eq_true,
      Bool.true_eq_false, eq_self_iff_true, ↓reduceIte] at h
    cases hst : s.mFlushingAudio with
    | FLUSHING_DECODER =>
      rw [hst] at h
      simp only [IsFlushingStateNS, Bool.false_eq_true,
      Bool.true_eq_false, eq_self_iff_true, ↓reduceIte] at h
      refine fffp_stepConcl h (by simp) (by simp) ?_
      intro hI
      constructor
      · intro hbad
        simp at hbad
      · intro hbad
        show s.mVideoDecoder = true
        exact hI.2 (by simpa using hbad)
    | FLUSHING_DECODER_SHUTDOWN =>
      rw [hst] at h
      simp only [IsFlushingStateNS, Bool.false_eq_true,
      Bool.true_eq_false, eq_self_iff_true, ↓reduceIte] at h
      by_cases h3 : s.mAudioDecoder = false
      · rw [if_pos h3] at h
        cases h
      · rw [if_neg h3] at h
        cases hff : finishFlushIfPossible
            { s with mFlushingAudio := .SHUTTING_DOWN_DECODER } with
        | error f =>
          rw [hff] at h
          simp at h
        | ok p =>
          obtain ⟨s3, ev3⟩ := p
          rw [hff] at h
          simp only [Except.ok.injEq, Prod.mk.injEq] at h
          obtain ⟨rfl, rfl⟩ := h
          refine fffp_stepConcl_cons hff (by simp) (by simp) ?_
          intro hI
          constructor
          · intro hbad
            show s.mAudioDecoder = true
            simpa using h3
          · intro hbad
            show s.mVideoDecoder = true
            exact hI.2 (by simpa using hbad)
    | NONE =>
      rw [hst] at h
      simp [IsFlushingStateNS] at h
    | AWAITING_DISCONTINUITY =>
      rw [hst] at h
      simp [IsFlushingStateNS] at h
    | SHUTTING_DOWN_DECODER =>
      rw [hst] at h
      simp [IsFlushingStateNS] at h
    | FLUSHED =>
      rw [hst] at h
      simp [IsFlushingStateNS] at h
    | SHUT_DOWN =>
      rw [hst] at h
      simp [IsFlushingStateNS] at h

theorem shutdownCompleted_step_spec {s : NPState} {audio : Bool}
    {s' : NPState} {ev : List Event}
    (h : onMessageReceived s (.shutdownCompleted audio) = .ok (s', ev)) :
    StepConcl s s' ev := by
  simp only [onMessageReceived] at h
  cases audio with
  | false =>
    simp only [NPState.flushingOf, Bool.false_eq_true,
      Bool.true_eq_false, eq_self_iff_true, ↓reduceIte] at h
    by_cases hst : s.mFlushingVideo ≠ .SHUTTING_DOWN_DECODER
    · rw [if_pos hst] at h
      cases h
    · rw [if_neg hst] at h
      refine fffp_stepConcl h (by simp) (by simp) ?_
      intro hI
      constructor
      · intro hbad
        show s.mAudioDecoder = true
        exact hI.1 (by simpa using hbad)
      · intro hbad
        simp at hbad
  | true =>
    simp only [NPState.flushingOf, Bool.false_eq_true,
      Bool.true_eq_false, eq_self_iff_true, ↓reduceIte] at h
    by_cases hst : s.mFlushingAudio ≠ .SHUTTING_DOWN_DECODER
    · rw [if_pos hst] at h
      cases h
    · rw [if_neg hst] at h
      refine fffp_stepConcl h (by simp) (by simp) ?_
      intro hI
      constructor
      · intro hbad
        simp at hbad
      · intro hbad
        show s.mVideoDecoder = true
        exact hI.2 (by simpa using hbad)

theorem reset_step_spec {s : NPState} {s' : NPState} {ev : List Event}
    (h : onMessageReceived s .reset = .ok (s', ev)) :
    StepConcl s s' ev := by
  simp only [onMessageReceived] at h
  by_cases h1 : (s.mFlushingAudio ≠ .NONE ∨ s.mFlushingVideo ≠ .NONE)
  · rw [if_pos h1] at h
    simp only [Except.ok.injEq, Prod.mk.injEq] at h
    obtain ⟨rfl, rfl⟩ := h
    exact ⟨Or.inl ⟨rfl, rfl⟩, by simp,
      fun hI => DecoderInv_statuses hI rfl rfl (fun x => x) (fun x => x)⟩
  · rw [if_neg h1] at h
    by_cases h2 : (s.mAudioDecoder = false ∧ s.mVideoDecoder = false)
    · rw [if_pos h2] at h
      obtain ⟨hd1, hd2, rfl, rfl⟩ := finishReset_ok_spec h
      refine ⟨Or.inl ⟨scanPostsOf_notifyListener s .RESET_COMPLETE, by simp⟩, ?_, ?_⟩
      · rw [count_notifyListener_zero]
        omega
      · intro hI
        exact DecoderInv_statuses hI (by simp) (by simp)
          (fun x => by simpa using x) (fun x => by simpa using x)
    · rw [if_neg h2] at h
      cases hfd1 : (if s.mAudioDecoder = true then flushDecoder true true s
          else .ok (s, [])) with
      | error f =>
        rw [hfd1] at h
        cases h
      | ok p =>
        obtain ⟨s1, ev1⟩ := p
        rw [hfd1] at h
        dsimp only at h
        have hstep1 : (s1 = s ∧ ev1 = []) ∨ flushDecoder true true s = .ok (s1, ev1) := by
          by_cases hAD : s.mAudioDecoder = true
          · right
            rw [if_pos hAD] at hfd1
            exact hfd1
          · left
            rw [if_neg hAD] at hfd1
            simp only [Except.ok.injEq, Prod.mk.injEq] at hfd1
            exact ⟨hfd1.1.symm, hfd1.2.symm⟩
        cases hfd2 : (if s1.mVideoDecoder = true then flushDecoder false true s1
            else .ok (s1, [])) with
        | error f =>
          rw [hfd2] at h
          cases h
        | ok q =>
          obtain ⟨s2, ev2⟩ := q
          rw [hfd2] at h
          dsimp only at h
          simp only [Except.ok.injEq, Prod.mk.injEq] at h
          obtain ⟨rfl, rfl⟩ := h
          have hstep2 : (s2 = s1 ∧ ev2 = []) ∨
              flushDecoder false true s1 = .ok (s2, ev2) := by
            by_cases hVD : s1.mVideoDecoder = true
            · right
              rw [if_pos hVD] at hfd2
              exact hfd2
            · left
              rw [if_neg hVD] at hfd2
              simp only [Except.ok.injEq, Prod.mk.injEq] at hfd2
              exact ⟨hfd2.1.symm, hfd2.2.symm⟩
          have hf1 : scanPostsOf ev1 = [] ∧ s1.mScanSourcesPending = s.mScanSourcesPending ∧
              ev1.count (Event.sendEvent .PLAYBACK_COMPLETE) = 0 ∧
              (DecoderInv s → DecoderInv s1) := by
            cases hstep1 with
            | inl he =>
              obtain ⟨rfl, rfl⟩ := he
              exact ⟨rfl, rfl, rfl, fun x => x⟩
            | inr hfd =>
              obtain ⟨hev, -, -, -, -, hpend, -⟩ := flushDecoder_ok_spec hfd
              subst hev
              exact ⟨rfl, hpend, rfl, fun hI => flushDecoder_DecInv hI hfd⟩
          have hf2 : scanPostsOf ev2 = [] ∧ s2.mScanSourcesPending = s1.mScanSourcesPending ∧
              ev2.count (Event.sendEvent .PLAYBACK_COMPLETE) = 0 ∧
              (DecoderInv s1 → DecoderInv s2) := by
            cases hstep2 with
            | inl he =>
              obtain ⟨rfl, rfl⟩ := he
              exact ⟨rfl, rfl, rfl, fun x => x⟩
            | inr hfd =>
              obtain ⟨hev, -, -, -, -, hpend, -⟩ := flushDecoder_ok_spec hfd
              subst hev
              exact ⟨rfl, hpend, rfl, fun hI => flushDecoder_DecInv hI hfd⟩
          refine ⟨Or.inl ⟨?_, ?_⟩, ?_, ?_⟩
          · rw [scanPostsOf_append, hf1.1, hf2.1]
            rfl
          · show s2.mScanSourcesPending = s.mScanSourcesPending
            rw [hf2.2.1, hf1.2.1]
          · rw [List.count_append, hf1.2.2.1, hf2.2.2.1]
            omega
          · intro hI
            have h2 := hf2.2.2.2 (hf1.2.2.2 hI)
            exact DecoderInv_statuses h2 (by simp) (by simp)
              (fun x => by simpa using x) (fun x => by simpa using x)

theorem step_spec {s : NPState} {m : Msg} {s' : NPState} {ev : List Event}
    (hm : m.isScanMsg = false)
    (h : onMessageReceived s m = .ok (s', ev)) :
    ((scanPostsOf ev = [] ∧ s'.mScanSourcesPending = s.mScanSourcesPending) ∨
     (s.mScanSourcesPending = false ∧
      scanPostsOf ev = [s.mScanSourcesGeneration] ∧
      s'.mScanSourcesPending = true)) ∧
    ev.count (Event.sendEvent .PLAYBACK_COMPLETE) ≤ 1 ∧
    (DecoderInv s → DecoderInv s') := by
  cases m with
  | scanSources g vf af fm => simp [Msg.isScanMsg] at hm
  | setListener =>
    simp only [onMessageReceived, Except.ok.injEq, Prod.mk.injEq] at h
    obtain ⟨rfl, rfl⟩ := h
    exact ⟨Or.inl ⟨rfl, rfl⟩, by simp,
      fun hI => DecoderInv_statuses hI rfl rfl (fun x => x) (fun x => x)⟩
  | setVideoSurface =>
    simp only [onMessageReceived, Except.ok.injEq, Prod.mk.injEq] at h
    obtain ⟨rfl, rfl⟩ := h
    exact ⟨Or.inl ⟨rfl, rfl⟩, by simp,
      fun hI => DecoderInv_statuses hI rfl rfl (fun x => x) (fun x => x)⟩
  | setAudioSink =>
    simp only [onMessageReceived, Except.ok.injEq, Prod.mk.injEq] at h
    obtain ⟨rfl, rfl⟩ := h
    exact ⟨Or.inl ⟨rfl, rfl⟩, by simp,
      fun hI => DecoderInv_statuses hI rfl rfl (fun x => x) (fun x => x)⟩
  | setDataSource =>
    simp only [onMessageReceived] at h
    by_cases h1 : s.mSource = true
    · rw [if_pos h1] at h
      cases h
    · rw [if_neg h1] at h
      simp only [Except.ok.injEq, Prod.mk.injEq] at h
      obtain ⟨rfl, rfl⟩ := h
      exact ⟨Or.inl ⟨rfl, rfl⟩, by simp,
        fun hI => DecoderInv_statuses hI rfl rfl (fun x => x) (fun x => x)⟩
  | start =>
    simp only [onMessageReceived] at h
    by_cases hp : s.mScanSourcesPending = true
    · rw [postScanSources_pending
        { s with mAudioEOS := false, mVideoEOS := false, mRenderer := true }
        hp] at h
      dsimp only at h
      simp only [Except.ok.injEq, Prod.mk.injEq] at h
      obtain ⟨rfl, rfl⟩ := h
      refine ⟨Or.inl ⟨rfl, rfl⟩, by simp, fun hI =>
        DecoderInv_statuses hI rfl rfl (fun x => x) (fun x => x)⟩
    · have hp2 : s.mScanSourcesPending = false := by
        simpa using hp
      rw [postScanSources_not_pending
        { s with mAudioEOS := false, mVideoEOS := false, mRenderer := true }
        hp2] at h
      dsimp only at h
      simp only [Except.ok.injEq, Prod.mk.injEq] at h
      obtain ⟨rfl, rfl⟩ := h
      refine ⟨Or.inr ⟨hp2, by simp [scanPostsOf], rfl⟩, by simp, fun hI =>
        DecoderInv_statuses hI rfl rfl (fun x => x) (fun x => x)⟩
  | fillThisBuffer audio dq fm =>
    simp only [onMessageReceived] at h
    cases hfd : feedDecoderInputData audio dq s with
    | error f =>
      rw [hfd] at h
      cases h
    | ok p =>
      obtain ⟨s1, ev1, wb⟩ := p
      rw [hfd] at h
      dsimp only at h
      obtain ⟨hposts1, hcnt1, hpend1, hst1⟩ := feed_ok_spec hfd
      have hDec : DecoderInv s → DecoderInv s1 := by
        intro hI
        cases hst1 with
        | inl heq => rw [heq]; exact hI
        | inr hex =>
          obtain ⟨fc, ev2, hfd2⟩ := hex
          exact flushDecoder_DecInv hI hfd2
      by_cases hwb : wb = true
      · rw [if_pos hwb] at h
        by_cases hfm : fm = true
        · rw [if_pos hfm] at h
          simp only [Except.ok.injEq, Prod.mk.injEq] at h
          obtain ⟨rfl, rfl⟩ := h
          refine ⟨Or.inl ⟨?_, hpend1⟩, ?_, hDec⟩
          · rw [scanPostsOf_append, hposts1]
            rfl
          · simp [List.count_append, hcnt1]
        · rw [if_neg hfm] at h
          simp only [Except.ok.injEq, Prod.mk.injEq] at h
          obtain ⟨rfl, rfl⟩ := h
          refine ⟨Or.inl ⟨?_, hpend1⟩, ?_, hDec⟩
          · rw [scanPostsOf_append, hposts1]
            rfl
          · simp [List.count_append, hcnt1]
      · rw [if_neg hwb] at h
        simp only [Except.ok.injEq, Prod.mk.injEq] at h
        obtain ⟨rfl, rfl⟩ := h
        exact ⟨Or.inl ⟨hposts1, hpend1⟩, by simp [hcnt1], hDec⟩
  | decoderEOS audio =>
    simp only [onMessageReceived, Except.ok.injEq, Prod.mk.injEq] at h
    obtain ⟨rfl, rfl⟩ := h
    exact ⟨Or.inl ⟨rfl, rfl⟩, by simp [scanPostsOf],
      fun hI => DecoderInv_statuses hI rfl rfl (fun x => x) (fun x => x)⟩
  | drainThisBuffer audio =>
    simp only [onMessageReceived, Except.ok.injEq, Prod.mk.injEq] at h
    obtain ⟨rfl, rfl⟩ := h
    exact ⟨Or.inl ⟨rfl, rfl⟩, by simp [scanPostsOf],
      fun hI => DecoderInv_statuses hI rfl rfl (fun x => x) (fun x => x)⟩
  | rendererFlushComplete audio =>
    simp only [onMessageReceived, Except.ok.injEq, Prod.mk.injEq] at h
    obtain ⟨rfl, rfl⟩ := h
    exact ⟨Or.inl ⟨rfl, rfl⟩, by simp,
      fun hI => DecoderInv_statuses hI rfl rfl (fun x => x) (fun x => x)⟩
  | moreDataQueued =>
    simp only [onMessageReceived, Except.ok.injEq, Prod.mk.injEq] at h
    obtain ⟨rfl, rfl⟩ := h
    exact ⟨Or.inl ⟨rfl, rfl⟩, by simp,
      fun hI => DecoderInv_statuses hI rfl rfl (fun x => x) (fun x => x)⟩
  | outputFormatChanged audio rate ch openOk =>
    simp only [onMessageReceived] at h
    by_cases h1 : audio = false
    · rw [if_pos h1] at h
      cases h
    · rw [if_neg h1] at h
      by_cases h2 : openOk = false
      · rw [if_pos h2] at h
        cases h
      · rw [if_neg h2] at h
        simp only [Except.ok.injEq, Prod.mk.injEq] at h
        obtain ⟨rfl, rfl⟩ := h
        exact ⟨Or.inl ⟨rfl, rfl⟩, by simp [scanPostsOf],
          fun hI => DecoderInv_statuses hI rfl rfl (fun x => x) (fun x => x)⟩
  | rendererEOS audio =>
    simp only [onMessageReceived] at h
    cases audio with
    | false =>
      simp only [Bool.false_eq_true, Bool.true_eq_false, eq_self_iff_true,
        true_or, or_true, true_and, and_true, ↓reduceIte] at h
      by_cases hc : (s.mAudioEOS = true ∨ s.mAudioDecoder = false)
      · rw [if_pos hc] at h
        simp only [Except.ok.injEq, Prod.mk.injEq] at h
        obtain ⟨rfl, rfl⟩ := h
        exact ⟨Or.inl ⟨scanPostsOf_notifyListener _ _, rfl⟩,
          count_notifyListener _ _ _, fun hI =>
          DecoderInv_statuses hI rfl rfl (fun x => x) (fun x => x)⟩
      · rw [if_neg hc] at h
        simp only [Except.ok.injEq, Prod.mk.injEq] at h
        obtain ⟨rfl, rfl⟩ := h
        exact ⟨Or.inl ⟨rfl, rfl⟩, by simp, fun hI =>
          DecoderInv_statuses hI rfl rfl (fun x => x) (fun x => x)⟩
    | true =>
      simp only [Bool.false_eq_true, Bool.true_eq_false, eq_self_iff_true,
        true_or, or_true, true_and, and_true, ↓reduceIte] at h
      by_cases hc : (s.mVideoEOS = true ∨ s.mVideoDecoder = false)
      · rw [if_pos hc] at h
        simp only [Except.ok.injEq, Prod.mk.injEq] at h
        obtain ⟨rfl, rfl⟩ := h
        exact ⟨Or.inl ⟨scanPostsOf_notifyListener _ _, rfl⟩,
          count_notifyListener _ _ _, fun hI =>
          DecoderInv_statuses hI rfl rfl (fun x => x) (fun x => x)⟩
      · rw [if_neg hc] at h
        simp only [Except.ok.injEq, Prod.mk.injEq] at h
        obtain ⟨rfl, rfl⟩ := h
        exact ⟨Or.inl ⟨rfl, rfl⟩, by simp, fun hI =>
          DecoderInv_statuses hI rfl rfl (fun x => x) (fun x => x)⟩
  | flushCompleted audio =>
    exact flushCompleted_step_spec h
  | shutdownCompleted audio =>
    exact shutdownCompleted_step_spec h
  | reset =>
    exact reset_step_spec h

theorem feed_not_nullDeref {audio : Bool} {dq : DequeueResult} {s : NPState}
    (hdec : s.decoderOf audio = true) :
    feedDecoderInputData audio dq s ≠ .error .nullDeref := by
  intro h
  unfold feedDecoderInputData at h
  split_ifs at h with h1
  cases dq with
  | ok => cases h
  | wouldBlock => cases h
  | otherError => cases h
  | discontinuity fc =>
      dsimp only at h
      cases hfd : flushDecoder audio fc s with
      | error f =>
        rw [hfd] at h
        simp only [Except.error.injEq] at h
        subst h
        exact flushDecoder_not_nullDeref hdec hfd
      | ok p =>
        obtain ⟨s1, ev1⟩ := p
        rw [hfd] at h
        simp at h

theorem step_not_nullDeref (s : NPState) (m : Msg)
    (hlive : decoderLive s m = true) :
    onMessageReceived s m ≠ .error .nullDeref := by
  intro h
  cases m with
  | setListener => simp [onMessageReceived] at h
  | setVideoSurface => simp [onMessageReceived] at h
  | setAudioSink => simp [onMessageReceived] at h
  | moreDataQueued => simp [onMessageReceived] at h
  | decoderEOS a => simp [onMessageReceived] at h
  | drainThisBuffer a => simp [onMessageReceived] at h
  | rendererFlushComplete a => simp [onMessageReceived] at h
  | setDataSource =>
    simp only [onMessageReceived] at h
    split_ifs at h <;> simp_all
  | outputFormatChanged a r c o =>
    simp only [onMessageReceived] at h
    split_ifs at h <;> simp_all
  | rendererEOS a =>
    simp only [onMessageReceived] at h
    split_ifs at h <;> simp_all
  | start =>
    simp only [onMessageReceived] at h
    cases hps : postScanSources { s with
        mAudioEOS := false, mVideoEOS := false, mRenderer := true } with
    | mk a b =>
      rw [hps] at h
      simp at h
  | scanSources g vf af fm =>
    simp only [onMessageReceived] at h
    by_cases hg : g ≠ s.mScanSourcesGeneration
    · rw [if_pos hg] at h
      cases h
    · rw [if_neg hg] at h
      cases hID2 : instantiateDecoder false vf { s with mScanSourcesPending := false } with
      | mk s2 ev2 =>
        rw [hID2] at h
        dsimp only at h
        cases hID3 : (if s2.mAudioSink = true then instantiateDecoder true af s2
            else (s2, [])) with
        | mk s3 ev3 =>
          rw [hID3] at h
          dsimp only at h
          split_ifs at h <;> simp_all
  | fillThisBuffer a dq fm =>
    simp only [decoderLive, decoderOrigin] at hlive
    simp only [onMessageReceived] at h
    cases hfd : feedDecoderInputData a dq s with
    | error f =>
      rw [hfd] at h
      simp only [Except.error.injEq] at h
      subst h
      exact feed_not_nullDeref hlive hfd
    | ok p =>
      obtain ⟨s1, ev1, wb⟩ := p
      rw [hfd] at h
      dsimp only at h
      split_ifs at h <;> simp_all
  | flushCompleted a =>
    simp only [decoderLive, decoderOrigin, NPState.decoderOf] at hlive
    simp only [onMessageReceived] at h
    cases a with
    | false =>
      simp only [Bool.false_eq_true, Bool.true_eq_false, eq_self_iff_true,
        ↓reduceIte] at hlive
      simp only [NPState.flushingOf, NPState.decoderOf, Bool.false_eq_true,
        Bool.true_eq_false, eq_self_iff_true, ↓reduceIte] at h
      cases hst : s.mFlushingVideo with
      | FLUSHING_DECODER =>
        rw [hst] at h
        simp only [IsFlushingStateNS, Bool.false_eq_true,
          Bool.true_eq_false, eq_self_iff_true, ↓reduceIte] at h
        have := fffp_error h
        cases this
      | FLUSHING_DECODER_SHUTDOWN =>
        rw [hst] at h
        simp only [IsFlushingStateNS, Bool.false_eq_true,
          Bool.true_eq_false, eq_self_iff_true, ↓reduceIte] at h
        rw [if_neg (by simp [hlive])] at h
        cases hff : finishFlushIfPossible
            { s with mFlushingVideo := .SHUTTING_DOWN_DECODER } with
        | error f =>
          rw [hff] at h
          simp only [Except.error.injEq] at h
          subst h
          have := fffp_error hff
          cases this
        | ok p =>
          rw [hff] at h
          simp at h
      | NONE =>
        rw [hst] at h
        simp [IsFlushingStateNS] at h
      | AWAITING_DISCONTINUITY =>
        rw [hst] at h
        simp [IsFlushingStateNS] at h
      | SHUTTING_DOWN_DECODER =>
        rw [hst] at h
        simp [IsFlushingStateNS] at h
      | FLUSHED =>
        rw [hst] at h
        simp [IsFlushingStateNS] at h
      | SHUT_DOWN =>
        rw [hst] at h
        simp [IsFlushingStateNS] at h
    | true =>
      simp only [Bool.false_eq_true, Bool.true_eq_false, eq_self_iff_true,
        ↓reduceIte] at hlive
      simp only [NPState.flushingOf, NPState.decoderOf, Bool.false_eq_true,
        Bool.true_eq_false, eq_self_iff_true, ↓reduceIte] at h
      cases hst : s.mFlushingAudio with
      | FLUSHING_DECODER =>
        rw [hst] at h
        simp only [IsFlushingStateNS, Bool.false_eq_true,
          Bool.true_eq_false, eq_self_iff_true, ↓reduceIte] at h
        have := fffp_error h
        cases this
      | FLUSHING_DECODER_SHUTDOWN =>
        rw [hst] at h
        simp only [IsFlushingStateNS, Bool.false_eq_true,
          Bool.true_eq_false, eq_self_iff_true, ↓reduceIte] at h
        rw [if_neg (by simp [hlive])] at h
        cases hff : finishFlushIfPossible
            { s with mFlushingAudio := .SHUTTING_DOWN_DECODER } with
        | error f =>
          rw [hff] at h
          simp only [Except.error.injEq] at h
          subst h
          have := fffp_error hff
          cases this
        | ok p =>
          rw [hff] at h
          simp at h
      | NONE =>
        rw [hst] at h
        simp [IsFlushingStateNS] at h
      | AWAITING_DISCONTINUITY =>
        rw [hst] at h
        simp [IsFlushingStateNS] at h
      | SHUTTING_DOWN_DECODER =>
        rw [hst] at h
        simp [IsFlushingStateNS] at h
      | FLUSHED =>
        rw [hst] at h
        simp [IsFlushingStateNS] at h
      | SHUT_DOWN =>
        rw [hst] at h
        simp [IsFlushingStateNS] at h
  | shutdownCompleted a =>
    simp only [onMessageReceived] at h
    cases a with
    | false =>
      simp only [NPState.flushingOf, Bool.false_eq_true, Bool.true_eq_false,
        eq_self_iff_true, ↓reduceIte] at h
      by_cases hst : s.mFlushingVideo ≠ .SHUTTING_DOWN_DECODER
      · rw [if_pos hst] at h
        cases h
      · rw [if_neg hst] at h
        have := fffp_error h
        cases this
    | true =>
      simp only [NPState.flushingOf, Bool.false_eq_true, Bool.true_eq_false,
        eq_self_iff_true, ↓reduceIte] at h
      by_cases hst : s.mFlushingAudio ≠ .SHUTTING_DOWN_DECODER
      · rw [if_pos hst] at h
        cases h
      · rw [if_neg hst] at h
        have := fffp_error h
        cases this
  | reset =>
    simp only [onMessageReceived] at h
    by_cases h1 : (s.mFlushingAudio ≠ .NONE ∨ s.mFlushingVideo ≠ .NONE)
    · rw [if_pos h1] at h
      cases h
    · rw [if_neg h1] at h
      by_cases h2 : (s.mAudioDecoder = false ∧ s.mVideoDecoder = false)
      · rw [if_pos h2] at h
        have := finishReset_error h
        cases this
      · rw [if_neg h2] at h
        cases hfd1 : (if s.mAudioDecoder = true then flushDecoder true true s
            else .ok (s, [])) with
        | error f =>
          rw [hfd1] at h
          simp only [Except.error.injEq] at h
          subst h
          by_cases hAD : s.mAudioDecoder = true
          · rw [if_pos hAD] at hfd1
            exact flushDecoder_not_nullDeref
              (by simp [NPState.decoderOf, hAD]) hfd1
          · rw [if_neg hAD] at hfd1
            cases hfd1
        | ok p =>
          obtain ⟨s1, ev1⟩ := p
          rw [hfd1] at h
          dsimp only at h
          cases hfd2 : (if s1.mVideoDecoder = true then flushDecoder false true s1
              else .ok (s1, [])) with
          | error f =>
            rw [hfd2] at h
            simp only [Except.error.injEq] at h
            subst h
            by_cases hVD : s1.mVideoDecoder = true
            · rw [if_pos hVD] at hfd2
              exact flushDecoder_not_nullDeref
                (by simp [NPState.decoderOf, hVD]) hfd2
            · rw [if_neg hVD] at hfd2
              cases hfd2
          | ok q =>
            obtain ⟨s2, ev2⟩ := q
            rw [hfd2] at h
            simp at h

theorem reachable_scanQueueInv {sys : Sys} (h : Reachable sys) :
    ScanQueueInv sys := by
  induction h with
  | refl =>
    exact ⟨by simp [initSys], by simp [initSys]⟩
  | @tail b c hsteps hstep ih =>
    obtain ⟨hlen, hmem⟩ := ih
    cases hstep with
    | scanDispatch i hi vf af fm st2 ev h2 =>
      have her : b.scans.eraseIdx i = [] := by
        have h1 := List.length_eraseIdx_add_one hi
        apply List.eq_nil_of_length_eq_zero
        omega
      obtain ⟨hposts, -, -⟩ := scanStep_spec h2
      constructor
      · show (b.scans.eraseIdx i ++ scanPostsOf ev).length ≤ 1
        rw [her]
        cases hposts with
        | inl hp => simp [hp]
        | inr hp => simp [hp.1]
      · intro g hg
        simp only at hg ⊢
        rw [her, List.nil_append] at hg
        cases hposts with
        | inl hp =>
          rw [hp] at hg
          cases hg
        | inr hp =>
          exact hp.2
    | envDispatch m st2 ev hscan hlive h2 =>
      obtain ⟨hposts, -, -⟩ := step_spec hscan h2
      cases hposts with
      | inl hp =>
        constructor
        · show (b.scans ++ scanPostsOf ev).length ≤ 1
          rw [hp.1]
          simpa using hlen
        · intro g hg
          simp only at hg ⊢
          rw [hp.1, List.append_nil] at hg
          rw [hp.2]
          exact hmem g hg
      | inr hp =>
        have hnil : b.scans = [] := by
          cases hq : b.scans with
          | nil => rfl
          | cons a l =>
            have := hmem a (by rw [hq]; exact List.mem_cons_self a l)
            rw [this] at hp
            cases hp.1
        constructor
        · show (b.scans ++ scanPostsOf ev).length ≤ 1
          rw [hnil, hp.2.1]
          simp
        · intro g hg
          exact hp.2.2

theorem reachable_decoderInv {sys : Sys} (h : Reachable sys) :
    DecoderInv sys.st := by
  induction h with
  | refl => decide
  | @tail b c hsteps hstep ih =>
    cases hstep with
    | scanDispatch i hi vf af fm st2 ev h2 =>
      exact (scanStep_spec h2).2.2 ih
    | envDispatch m st2 ev hscan hlive h2 =>
      exact (step_spec hscan h2).2.2 ih

/-! ## Claim theorems -/

/-- C1 counterexample: the claim quantifies over every FlushStatus other
than NONE, but IsFlushingState is true only for FLUSHING_DECODER and
FLUSHING_DECODER_SHUTDOWN. At a state whose audio track is in
AWAITING_DISCONTINUITY (not NONE), feedDecoderInputData dequeues the
source and delivers the access-unit buffer to the decoder instead of
replying with a discontinuity error. -/
theorem C1_counterexample :
    sC1.mFlushingAudio ≠ FlushStatus.NONE ∧
    feedDecoderInputData true .ok sC1 =
      .ok (sC1, [.sourceDequeue true, .replyBuffer], false) := by
  exact ⟨by decide, by rfl⟩

/-- C1 (amended): for a track whose FlushStatus is FLUSHING_DECODER or
FLUSHING_DECODER_SHUTDOWN (exactly the states IsFlushingState reports),
feedDecoderInputData never delivers a buffer: it replies with an
INFO_DISCONTINUITY error, does not dequeue the source, and leaves the
controller state unchanged. -/
theorem C1_feed_flushing_track :
    ∀ (s : NPState) (audio : Bool) (dq : DequeueResult),
      IsFlushingState (s.flushingOf audio) = true →
      feedDecoderInputData audio dq s = .ok (s, [.replyError true], false) := by
  intro s audio dq h
  unfold feedDecoderInputData
  rw [if_pos h]

theorem C1_witness :
    IsFlushingState (({ initState with mFlushingAudio := .FLUSHING_DECODER }
      : NPState).flushingOf true) = true ∧
    feedDecoderInputData true .ok { initState with mFlushingAudio := .FLUSHING_DECODER } =
      .ok ({ initState with mFlushingAudio := .FLUSHING_DECODER },
           [.replyError true], false) :=
  ⟨by decide,
   C1_feed_flushing_track { initState with mFlushingAudio := .FLUSHING_DECODER }
     true .ok (by decide)⟩

/-- C2: every successful flushDecoder call increments
mScanSourcesGeneration (a 32-bit counter, so modulo 2^32), and a
ScanSources message carrying a generation different from the current one
leaves the controller state unchanged and performs no calls on the
source, decoders, renderer or listener (its event list is empty). -/
theorem C2_flushDecoder_generation_stale_scan :
    (∀ (audio needShutdown : Bool) (s s' : NPState) (ev : List Event),
      flushDecoder audio needShutdown s = .ok (s', ev) →
      s'.mScanSourcesGeneration = (s.mScanSourcesGeneration + 1) % 4294967296) ∧
    (∀ (s : NPState) (g : Nat) (vf af fm : Bool),
      g ≠ s.mScanSourcesGeneration →
      onMessageReceived s (.scanSources g vf af fm) = .ok (s, [])) := by
  constructor
  · intro audio ns s s' ev h
    exact (flushDecoder_ok_spec h).2.2.2.2.2.2.1
  · intro s g vf af fm hg
    simp only [onMessageReceived]
    rw [if_pos hg]

theorem C2_witness :
    ({ initState with
       mAudioDecoder := true, mScanSourcesGeneration := 1,
       mFlushingAudio := .FLUSHING_DECODER_SHUTDOWN, mFlushingVideo := .FLUSHED }
      : NPState).mScanSourcesGeneration =
      (({ initState with mAudioDecoder := true }
        : NPState).mScanSourcesGeneration + 1) % 4294967296 ∧
    onMessageReceived initState (.scanSources 5 false false false) =
      .ok (initState, []) :=
  ⟨C2_flushDecoder_generation_stale_scan.1 true true
     { initState with mAudioDecoder := true }
     { initState with
       mAudioDecoder := true, mScanSourcesGeneration := 1,
       mFlushingAudio := .FLUSHING_DECODER_SHUTDOWN, mFlushingVideo := .FLUSHED }
     [.signalFlush true, .rendererFlush true] (by rfl),
   C2_flushDecoder_generation_stale_scan.2 initState 5 false false false
     (by decide)⟩

/-- C3 counterexample: at a quiescent state reached by a reset flush
(reset_in_progress true) during which a second Reset arrived
(reset_postponed true), finishFlushIfPossible runs finish_reset and
posts no Reset message, and reset_postponed stays set: the postponed
Reset does not produce exactly one later Reset execution. -/
theorem C3_counterexample :
    Quiescent sC3 ∧ sC3.mResetPostponed = true ∧ sC3.mResetInProgress = true ∧
    finishFlushIfPossible sC3 =
      .ok ({ sC3 with
             mSource := false, mRenderer := false,
             mFlushingAudio := .NONE, mFlushingVideo := .NONE,
             mResetInProgress := false },
           [.signalTimeDiscontinuity, .sendEvent .RESET_COMPLETE]) ∧
    [Event.signalTimeDiscontinuity,
      Event.sendEvent .RESET_COMPLETE].count Event.postReset = 0 ∧
    ({ sC3 with
       mSource := false, mRenderer := false,
       mFlushingAudio := .NONE, mFlushingVideo := .NONE,
       mResetInProgress := false } : NPState).mResetPostponed = true := by
  exact ⟨by decide, by rfl, by rfl, by rfl, by rfl, by rfl⟩

/-- C3 (amended): a Reset processed while either track is not NONE only
sets reset_postponed; and when the flush completes (both tracks
quiescent in finishFlushIfPossible) with reset_in_progress clear and
reset_postponed set, exactly one Reset message is posted and
reset_postponed is cleared. When reset_in_progress is also set,
finish_reset runs instead and reset_postponed survives (see the
counterexample). -/
theorem C3_reset_during_flush :
    (∀ s : NPState,
      (s.mFlushingAudio ≠ .NONE ∨ s.mFlushingVideo ≠ .NONE) →
      onMessageReceived s .reset = .ok ({ s with mResetPostponed := true }, [])) ∧
    (∀ (s s' : NPState) (ev : List Event),
      Quiescent s → s.mResetInProgress = false → s.mResetPostponed = true →
      finishFlushIfPossible s = .ok (s', ev) →
      ev.count Event.postReset = 1 ∧ s'.mResetPostponed = false) := by
  constructor
  · intro s hfl
    simp only [onMessageReceived]
    rw [if_pos hfl]
  · intro s s' ev hq hrip hrp h
    have hG1 : ¬(s.mFlushingAudio ≠ .FLUSHED ∧ s.mFlushingAudio ≠ .SHUT_DOWN) := by
      rcases hq.1 with h1 | h1 <;> simp [h1]
    have hG2 : ¬(s.mFlushingVideo ≠ .FLUSHED ∧ s.mFlushingVideo ≠ .SHUT_DOWN) := by
      rcases hq.2 with h1 | h1 <;> simp [h1]
    unfold finishFlushIfPossible at h
    rw [if_neg hG1, if_neg hG2] at h
    simp only at h
    rw [if_neg (show ¬(s.mResetInProgress = true) from by simp [hrip]),
      if_pos hrp] at h
    simp only [Except.ok.injEq, Prod.mk.injEq] at h
    obtain ⟨rfl, rfl⟩ := h
    constructor
    · have h0 : (Event.signalTimeDiscontinuity ::
          ((if s.mFlushingAudio = .SHUT_DOWN then ([] : List Event)
            else if s.mAudioDecoder = true then [Event.signalResume true] else []) ++
           (if s.mFlushingVideo = .SHUT_DOWN then ([] : List Event)
            else if s.mVideoDecoder = true then [Event.signalResume false]
            else []))).count Event.postReset = 0 := by
        split_ifs <;> rfl
      rw [List.count_append, h0]
      rfl
    · rfl

theorem C3_witness :
    onMessageReceived { initState with mFlushingAudio := .FLUSHING_DECODER }
        .reset =
      .ok ({ { initState with mFlushingAudio := .FLUSHING_DECODER } with
             mResetPostponed := true }, []) ∧
    ([Event.signalTimeDiscontinuity, Event.postReset].count Event.postReset = 1 ∧
     ({ { initState with
          mFlushingAudio := .FLUSHED, mFlushingVideo := .FLUSHED,
          mResetPostponed := true } with
        mFlushingAudio := FlushStatus.NONE, mFlushingVideo := FlushStatus.NONE,
        mResetPostponed := false } : NPState).mResetPostponed = false) :=
  ⟨C3_reset_during_flush.1 { initState with mFlushingAudio := .FLUSHING_DECODER }
     (by decide),
   C3_reset_during_flush.2
     { initState with
       mFlushingAudio := .FLUSHED, mFlushingVideo := .FLUSHED,
       mResetPostponed := true }
     { { initState with
         mFlushingAudio := .FLUSHED, mFlushingVideo := .FLUSHED,
         mResetPostponed := true } with
       mFlushingAudio := FlushStatus.NONE, mFlushingVideo := FlushStatus.NONE,
       mResetPostponed := false }
     [Event.signalTimeDiscontinuity, Event.postReset]
     (by decide) (by rfl) (by rfl) (by rfl)⟩

/-- C4 counterexample: within a single Start to Reset epoch (one Start
processed, no finish_reset), a reachable dispatch sequence delivers
PLAYBACK_COMPLETE to the listener twice: two renderer EOS notifications
for the audio track while both decoders are absent each re-trigger the
completion condition. -/
theorem C4_counterexample :
    Reachable sysC4 ∧
    sysC4.log.count (Event.sendEvent .PLAYBACK_COMPLETE) = 2 ∧
    sysC4.log.count Event.sourceStartCall = 1 ∧
    sysC4.log.count (Event.sendEvent .RESET_COMPLETE) = 0 := by
  exact ⟨runSys_reachable trC4 rfl, by rfl, by rfl, by rfl⟩

/-- C4 (amended): the processing of any single dispatched message sends
PLAYBACK_COMPLETE at most once; the at-most-once-per-epoch guarantee
does not hold (see the counterexample), since nothing deduplicates the
completion condition across messages. -/
theorem C4_playback_complete_per_dispatch :
    ∀ (s : NPState) (m : Msg) (s' : NPState) (ev : List Event),
      onMessageReceived s m = .ok (s', ev) →
      ev.count (Event.sendEvent .PLAYBACK_COMPLETE) ≤ 1 := by
  intro s m s' ev h
  cases m
  case scanSources g vf af fm => exact (scanStep_spec h).2.1
  all_goals exact (step_spec (by rfl) h).2.1

theorem C4_witness :
    List.count (Event.sendEvent .PLAYBACK_COMPLETE) ([] : List Event) ≤ 1 :=
  C4_playback_complete_per_dispatch initState .moreDataQueued initState [] rfl

theorem fffp_quiescent_parts {s s' : NPState} {ev : List Event}
    (hq : Quiescent s) (h : finishFlushIfPossible s = .ok (s', ev)) :
    s'.mFlushingAudio = .NONE ∧ s'.mFlushingVideo = .NONE ∧
    ∃ tail : List Event,
      ev = Event.signalTimeDiscontinuity ::
          (((if s.mFlushingAudio = .SHUT_DOWN then ([] : List Event)
             else if s.mAudioDecoder = true then [Event.signalResume true] else []) ++
            (if s.mFlushingVideo = .SHUT_DOWN then ([] : List Event)
             else if s.mVideoDecoder = true then [Event.signalResume false] else [])) ++
           tail) ∧
      ∀ b : Bool, Event.signalResume b ∉ tail := by
  have hG1 : ¬(s.mFlushingAudio ≠ .FLUSHED ∧ s.mFlushingAudio ≠ .SHUT_DOWN) := by
    rcases hq.1 with h1 | h1 <;> simp [h1]
  have hG2 : ¬(s.mFlushingVideo ≠ .FLUSHED ∧ s.mFlushingVideo ≠ .SHUT_DOWN) := by
    rcases hq.2 with h1 | h1 <;> simp [h1]
  unfold finishFlushIfPossible at h
  rw [if_neg hG1, if_neg hG2] at h
  simp only at h
  by_cases hrip : s.mResetInProgress = true
  · rw [if_pos hrip] at h
    cases hfr : finishReset { s with
        mFlushingAudio := .NONE, mFlushingVideo := .NONE,
        mResetInProgress := false } with
    | error f =>
      rw [hfr] at h
      simp at h
    | ok p =>
      obtain ⟨s2, ev2⟩ := p
      rw [hfr] at h
      simp only [Except.ok.injEq, Prod.mk.injEq] at h
      obtain ⟨rfl, rfl⟩ := h
      obtain ⟨-, -, rfl, rfl⟩ := finishReset_ok_spec hfr
      refine ⟨by simp, by simp,
        notifyListener { s with
          mFlushingAudio := .NONE, mFlushingVideo := .NONE,
          mResetInProgress := false } .RESET_COMPLETE, rfl, ?_⟩
      intro b hb
      unfold notifyListener at hb
      revert hb
      split <;> simp
  · rw [if_neg hrip] at h
    by_cases hrp : s.mResetPostponed = true
    · rw [if_pos hrp] at h
      simp only [Except.ok.injEq, Prod.mk.injEq] at h
      obtain ⟨rfl, rfl⟩ := h
      refine ⟨by simp, by simp, [Event.postReset], rfl, ?_⟩
      intro b hb
      simp at hb
    · rw [if_neg hrp] at h
      by_cases hsc : (s.mFlushingAudio = .SHUT_DOWN ∨ s.mFlushingVideo = .SHUT_DOWN)
      · rw [if_pos hsc] at h
        by_cases hp : s.mScanSourcesPending = true
        · rw [postScanSources_pending
            { s with
              mFlushingAudio := FlushStatus.NONE,
              mFlushingVideo := FlushStatus.NONE } hp] at h
          dsimp only at h
          simp only [Except.ok.injEq, Prod.mk.injEq] at h
          obtain ⟨rfl, rfl⟩ := h
          refine ⟨by simp, by simp, [], by simp, by simp⟩
        · have hp2 : s.mScanSourcesPending = false := by
            simpa using hp
          rw [postScanSources_not_pending
            { s with
              mFlushingAudio := FlushStatus.NONE,
              mFlushingVideo := FlushStatus.NONE } hp2] at h
          dsimp only at h
          simp only [Except.ok.injEq, Prod.mk.injEq] at h
          obtain ⟨rfl, rfl⟩ := h
          refine ⟨by simp, by simp,
            [Event.postScan s.mScanSourcesGeneration false], rfl, ?_⟩
          intro b hb
          simp at hb
      · rw [if_neg hsc] at h
        simp only [Except.ok.injEq, Prod.mk.injEq] at h
        obtain ⟨rfl, rfl⟩ := h
        refine ⟨by simp, by simp, [], by simp, by simp⟩

/-- C5 counterexample: at a quiescent state with the audio track
SHUT_DOWN, no reset pending, but a stale scan still marked pending,
finishFlushIfPossible performs none of the three continuations: the
ScanSources post required by the claim does not happen because
postScanSources is a no-op while mScanSourcesPending is true. -/
theorem C5_counterexample :
    Quiescent sC5 ∧ sC5.mFlushingAudio = .SHUT_DOWN ∧
    sC5.mResetInProgress = false ∧ sC5.mResetPostponed = false ∧
    finishFlushIfPossible sC5 =
      .ok ({ sC5 with mFlushingAudio := .NONE, mFlushingVideo := .NONE },
           [Event.signalTimeDiscontinuity]) ∧
    scanPostsOf [Event.signalTimeDiscontinuity] = [] := by
  exact ⟨by decide, by rfl, by rfl, by rfl, by rfl, by rfl⟩

/-- C5 (amended): finishFlushIfPossible changes nothing unless both
tracks are FLUSHED or SHUT_DOWN; when they are, it signals the renderer
time discontinuity, resumes each still-present decoder of a
non-SHUT_DOWN track, resets both statuses to NONE, and then performs
exactly one of finish_reset (reset_in_progress, cleared), posting one
Reset (else reset_postponed, cleared), posting ScanSources (else if a
track was SHUT_DOWN, and only when no scan is already pending, since
postScanSources is a no-op when mScanSourcesPending holds), or nothing,
in that priority order. -/
theorem C5_finishFlush_behavior :
    (∀ s : NPState, ¬ Quiescent s → finishFlushIfPossible s = .ok (s, [])) ∧
    (∀ (s s' : NPState) (ev : List Event), Quiescent s →
      finishFlushIfPossible s = .ok (s', ev) →
      Event.signalTimeDiscontinuity ∈ ev ∧
      s'.mFlushingAudio = .NONE ∧ s'.mFlushingVideo = .NONE ∧
      ((s.mFlushingAudio ≠ .SHUT_DOWN ∧ s.mAudioDecoder = true) →
        Event.signalResume true ∈ ev) ∧
      (s.mFlushingAudio = .SHUT_DOWN → Event.signalResume true ∉ ev) ∧
      ((s.mFlushingVideo ≠ .SHUT_DOWN ∧ s.mVideoDecoder = true) →
        Event.signalResume false ∈ ev) ∧
      (s.mFlushingVideo = .SHUT_DOWN → Event.signalResume false ∉ ev)) ∧
    (∀ (s s' : NPState) (ev : List Event), Quiescent s →
      s.mResetInProgress = true →
      finishFlushIfPossible s = .ok (s', ev) →
      s'.mResetInProgress = false ∧ s'.mRenderer = false ∧ s'.mSource = false ∧
      Event.postReset ∉ ev ∧ scanPostsOf ev = [] ∧
      (s.mListener = true → Event.sendEvent .RESET_COMPLETE ∈ ev)) ∧
    (∀ (s s' : NPState) (ev : List Event), Quiescent s →
      s.mResetInProgress = false → s.mResetPostponed = true →
      finishFlushIfPossible s = .ok (s', ev) →
      ev.count Event.postReset = 1 ∧ s'.mResetPostponed = false ∧
      scanPostsOf ev = []) ∧
    (∀ (s s' : NPState) (ev : List Event), Quiescent s →
      s.mResetInProgress = false → s.mResetPostponed = false →
      s.mScanSourcesPending = false →
      (s.mFlushingAudio = .SHUT_DOWN ∨ s.mFlushingVideo = .SHUT_DOWN) →
      finishFlushIfPossible s = .ok (s', ev) →
      scanPostsOf ev = [s.mScanSourcesGeneration] ∧
      s'.mScanSourcesPending = true ∧ Event.postReset ∉ ev) ∧
    (∀ (s s' : NPState) (ev : List Event), Quiescent s →
      s.mResetInProgress = false → s.mResetPostponed = false →
      s.mFlushingAudio ≠ .SHUT_DOWN → s.mFlushingVideo ≠ .SHUT_DOWN →
      finishFlushIfPossible s = .ok (s', ev) →
      scanPostsOf ev = [] ∧ Event.postReset ∉ ev ∧
      (∀ c : NotifyCode, Event.sendEvent c ∉ ev) ∧
      s' = { s with mFlushingAudio := .NONE, mFlushingVideo := .NONE }) := by
  refine ⟨?_, ?_, ?_, ?_, ?_, ?_⟩
  · intro s hnq
    unfold finishFlushIfPossible
    by_cases hG1 : s.mFlushingAudio ≠ .FLUSHED ∧ s.mFlushingAudio ≠ .SHUT_DOWN
    · rw [if_pos hG1]
    · rw [if_neg hG1]
      have hG2 : s.mFlushingVideo ≠ .FLUSHED ∧ s.mFlushingVideo ≠ .SHUT_DOWN := by
        unfold Quiescent at hnq
        tauto
      rw [if_pos hG2]
  · intro s s' ev hq h
    obtain ⟨hA, hV, tail, hev, htail⟩ := fffp_quiescent_parts hq h
    subst hev
    refine ⟨List.mem_cons_self _ _, hA, hV, ?_, ?_, ?_, ?_⟩
    · rintro ⟨h1, h2⟩
      simp [h1, h2]
    · intro h1 hmem
      rw [List.mem_cons] at hmem
      rcases hmem with h2 | hmem
      · cases h2
      rw [List.mem_append] at hmem
      rcases hmem with hmem | h2
      · rw [List.mem_append] at hmem
        rcases hmem with h2 | h2
        · rw [if_pos h1] at h2
          simp at h2
        · revert h2
          split_ifs <;> simp
      · exact htail true h2
    · rintro ⟨h1, h2⟩
      simp [h1, h2]
    · intro h1 hmem
      rw [List.mem_cons] at hmem
      rcases hmem with h2 | hmem
      · cases h2
      rw [List.mem_append] at hmem
      rcases hmem with hmem | h2
      · rw [List.mem_append] at hmem
        rcases hmem with h2 | h2
        · revert h2
          split_ifs <;> simp
        · rw [if_pos h1] at h2
          simp at h2
      · exact htail false h2
  · intro s s' ev hq hrip h
    have hG1 : ¬(s.mFlushingAudio ≠ .FLUSHED ∧ s.mFlushingAudio ≠ .SHUT_DOWN) := by
      rcases hq.1 with h1 | h1 <;> simp [h1]
    have hG2 : ¬(s.mFlushingVideo ≠ .FLUSHED ∧ s.mFlushingVideo ≠ .SHUT_DOWN) := by
      rcases hq.2 with h1 | h1 <;> simp [h1]
    unfold finishFlushIfPossible at h
    rw [if_neg hG1, if_neg hG2] at h
    simp only at h
    rw [if_pos hrip] at h
    cases hfr : finishReset { s with
        mFlushingAudio := .NONE, mFlushingVideo := .NONE,
        mResetInProgress := false } with
    | error f =>
      rw [hfr] at h
      simp at h
    | ok p =>
      obtain ⟨s2, ev2⟩ := p
      rw [hfr] at h
      simp only [Except.ok.injEq, Prod.mk.injEq] at h
      obtain ⟨rfl, rfl⟩ := h
      obtain ⟨-, -, rfl, rfl⟩ := finishReset_ok_spec hfr
      refine ⟨by simp, by simp, by simp, ?_, ?_, ?_⟩
      · show Event.postReset ∉ _
        unfold notifyListener
        split_ifs <;> simp
      · show scanPostsOf _ = []
        unfold notifyListener
        split_ifs <;> rfl
      · intro hl
        simp [notifyListener, hl]
  · intro s s' ev hq hrip hrp h
    have hG1 : ¬(s.mFlushingAudio ≠ .FLUSHED ∧ s.mFlushingAudio ≠ .SHUT_DOWN) := by
      rcases hq.1 with h1 | h1 <;> simp [h1]
    have hG2 : ¬(s.mFlushingVideo ≠ .FLUSHED ∧ s.mFlushingVideo ≠ .SHUT_DOWN) := by
      rcases hq.2 with h1 | h1 <;> simp [h1]
    unfold finishFlushIfPossible at h
    rw [if_neg hG1, if_neg hG2] at h
    simp only at h
    rw [if_neg (show ¬(s.mResetInProgress = true) from by simp [hrip]),
      if_pos hrp] at h
    simp only [Except.ok.injEq, Prod.mk.injEq] at h
    obtain ⟨rfl, rfl⟩ := h
    refine ⟨?_, rfl, ?_⟩
    · have h0 : (Event.signalTimeDiscontinuity ::
          ((if s.mFlushingAudio = .SHUT_DOWN then ([] : List Event)
            else if s.mAudioDecoder = true then [Event.signalResume true] else []) ++
           (if s.mFlushingVideo = .SHUT_DOWN then ([] : List Event)
            else if s.mVideoDecoder = true then [Event.signalResume false]
            else []))).count Event.postReset = 0 := by
        split_ifs <;> rfl
      rw [List.count_append, h0]
      rfl
    · rw [scanPostsOf_append]
      have h0 : scanPostsOf (Event.signalTimeDiscontinuity ::
          ((if s.mFlushingAudio = .SHUT_DOWN then ([] : List Event)
            else if s.mAudioDecoder = true then [Event.signalResume true] else []) ++
           (if s.mFlushingVideo = .SHUT_DOWN then ([] : List Event)
            else if s.mVideoDecoder = true then [Event.signalResume false]
            else []))) = [] := by
        split_ifs <;> rfl
      rw [h0]
      rfl
  · intro s s' ev hq hrip hrp hpend hsc h
    have hG1 : ¬(s.mFlushingAudio ≠ .FLUSHED ∧ s.mFlushingAudio ≠ .SHUT_DOWN) := by
      rcases hq.1 with h1 | h1 <;> simp [h1]
    have hG2 : ¬(s.mFlushingVideo ≠ .FLUSHED ∧ s.mFlushingVideo ≠ .SHUT_DOWN) := by
      rcases hq.2 with h1 | h1 <;> simp [h1]
    unfold finishFlushIfPossible at h
    rw [if_neg hG1, if_neg hG2] at h
    simp only at h
    rw [if_neg (show ¬(s.mResetInProgress = true) from by simp [hrip]),
      if_neg (show ¬(s.mResetPostponed = true) from by simp [hrp]),
      if_pos hsc] at h
    rw [postScanSources_not_pending
      { s with
        mFlushingAudio := FlushStatus.NONE,
        mFlushingVideo := FlushStatus.NONE } hpend] at h
    dsimp only at h
    simp only [Except.ok.injEq, Prod.mk.injEq] at h
    obtain ⟨rfl, rfl⟩ := h
    refine ⟨?_, rfl, ?_⟩
    · rw [scanPostsOf_append]
      have h0 : scanPostsOf (Event.signalTimeDiscontinuity ::
          ((if s.mFlushingAudio = .SHUT_DOWN then ([] : List Event)
            else if s.mAudioDecoder = true then [Event.signalResume true] else []) ++
           (if s.mFlushingVideo = .SHUT_DOWN then ([] : List Event)
            else if s.mVideoDecoder = true then [Event.signalResume false]
            else []))) = [] := by
        split_ifs <;> rfl
      rw [h0]
      rfl
    · show Event.postReset ∉ _
      split_ifs <;> simp
  · intro s s' ev hq hrip hrp hsa hsv h
    have hG1 : ¬(s.mFlushingAudio ≠ .FLUSHED ∧ s.mFlushingAudio ≠ .SHUT_DOWN) := by
      rcases hq.1 with h1 | h1 <;> simp [h1]
    have hG2 : ¬(s.mFlushingVideo ≠ .FLUSHED ∧ s.mFlushingVideo ≠ .SHUT_DOWN) := by
      rcases hq.2 with h1 | h1 <;> simp [h1]
    unfold finishFlushIfPossible at h
    rw [if_neg hG1, if_neg hG2] at h
    simp only at h
    rw [if_neg (show ¬(s.mResetInProgress = true) from by simp [hrip]),
      if_neg (show ¬(s.mResetPostponed = true) from by simp [hrp]),
      if_neg (show ¬(s.mFlushingAudio = .SHUT_DOWN ∨ s.mFlushingVideo = .SHUT_DOWN)
        from by simp [hsa, hsv])] at h
    simp only [Except.ok.injEq, Prod.mk.injEq] at h
    obtain ⟨rfl, rfl⟩ := h
    refine ⟨?_, ?_, ?_, rfl⟩
    · have h0 : scanPostsOf (Event.signalTimeDiscontinuity ::
          ((if s.mFlushingAudio = .SHUT_DOWN then ([] : List Event)
            else if s.mAudioDecoder = true then [Event.signalResume true] else []) ++
           (if s.mFlushingVideo = .SHUT_DOWN then ([] : List Event)
            else if s.mVideoDecoder = true then [Event.signalResume false]
            else []))) = [] := by
        split_ifs <;> rfl
      exact h0
    · show Event.postReset ∉ _
      split_ifs <;> simp
    · intro c
      show Event.sendEvent c ∉ _
      split_ifs <;> simp

theorem C5_witness :
    finishFlushIfPossible initState = .ok (initState, []) ∧
    ([Event.signalTimeDiscontinuity, Event.postReset].count Event.postReset = 1 ∧
     ({ { initState with
          mFlushingAudio := .SHUT_DOWN, mFlushingVideo := .FLUSHED,
          mResetPostponed := true } with
        mFlushingAudio := FlushStatus.NONE, mFlushingVideo := FlushStatus.NONE,
        mResetPostponed := false } : NPState).mResetPostponed = false ∧
     scanPostsOf [Event.signalTimeDiscontinuity, Event.postReset] = []) :=
  ⟨C5_finishFlush_behavior.1 initState (by decide),
   C5_finishFlush_behavior.2.2.2.1
     { initState with
       mFlushingAudio := .SHUT_DOWN, mFlushingVideo := .FLUSHED,
       mResetPostponed := true }
     { { initState with
         mFlushingAudio := .SHUT_DOWN, mFlushingVideo := .FLUSHED,
         mResetPostponed := true } with
       mFlushingAudio := FlushStatus.NONE, mFlushingVideo := FlushStatus.NONE,
       mResetPostponed := false }
     [Event.signalTimeDiscontinuity, Event.postReset]
     (by decide) (by rfl) (by rfl) (by rfl)⟩

/-- C6: with the target decoder present, flushDecoder moves a track whose
prior status is NONE or AWAITING_DISCONTINUITY to
FLUSHING_DECODER_SHUTDOWN when needShutdown and to FLUSHING_DECODER
otherwise, moving a NONE peer to AWAITING_DISCONTINUITY if the peer
decoder exists and directly to FLUSHED if it does not; any other prior
status aborts (CHECK failure). -/
theorem C6_flushDecoder_transitions :
    ∀ (s : NPState) (audio needShutdown : Bool),
      s.decoderOf audio = true →
      (((s.flushingOf audio = .NONE ∨
         s.flushingOf audio = .AWAITING_DISCONTINUITY) →
        ∃ (s' : NPState) (ev : List Event),
          flushDecoder audio needShutdown s = .ok (s', ev) ∧
          s'.flushingOf audio =
            (if needShutdown then FlushStatus.FLUSHING_DECODER_SHUTDOWN
             else FlushStatus.FLUSHING_DECODER) ∧
          (s.flushingOf (!audio) = .NONE →
            s'.flushingOf (!audio) =
              (if s.decoderOf (!audio) = true
               then FlushStatus.AWAITING_DISCONTINUITY
               else FlushStatus.FLUSHED))) ∧
       ((s.flushingOf audio ≠ .NONE ∧
         s.flushingOf audio ≠ .AWAITING_DISCONTINUITY) →
        flushDecoder audio needShutdown s = .error .checkFail)) := by
  intro s audio ns hdec
  cases audio with
  | true =>
    simp only [NPState.decoderOf, NPState.flushingOf, Bool.not_true,
      Bool.false_eq_true, Bool.true_eq_false, eq_self_iff_true,
      ↓reduceIte] at hdec ⊢
    constructor
    · intro hpre
      unfold flushDecoder
      simp only [Bool.false_eq_true, Bool.true_eq_false, eq_self_iff_true,
        ↓reduceIte]
      rw [if_neg (show ¬(s.mAudioDecoder = false) from by simp [hdec])]
      rw [if_pos hpre]
      refine ⟨_, _, rfl, ?_, ?_⟩
      · split_ifs <;> rfl
      · intro hpn
        rw [if_pos hpn]
    · rintro ⟨hne1, hne2⟩
      unfold flushDecoder
      simp only [Bool.false_eq_true, Bool.true_eq_false, eq_self_iff_true,
        ↓reduceIte]
      rw [if_neg (show ¬(s.mAudioDecoder = false) from by simp [hdec])]
      rw [if_neg (show ¬(s.mFlushingAudio = .NONE ∨
          s.mFlushingAudio = .AWAITING_DISCONTINUITY) from by
        simp [hne1, hne2])]
  | false =>
    simp only [NPState.decoderOf, NPState.flushingOf, Bool.not_false,
      Bool.false_eq_true, Bool.true_eq_false, eq_self_iff_true,
      ↓reduceIte] at hdec ⊢
    constructor
    · intro hpre
      unfold flushDecoder
      simp only [Bool.false_eq_true, Bool.true_eq_false, eq_self_iff_true,
        ↓reduceIte]
      rw [if_neg (show ¬(s.mVideoDecoder = false) from by simp [hdec])]
      rw [if_pos hpre]
      refine ⟨_, _, rfl, ?_, ?_⟩
      · split_ifs <;> rfl
      · intro hpn
        rw [if_pos hpn]
    · rintro ⟨hne1, hne2⟩
      unfold flushDecoder
      simp only [Bool.false_eq_true, Bool.true_eq_false, eq_self_iff_true,
        ↓reduceIte]
      rw [if_neg (show ¬(s.mVideoDecoder = false) from by simp [hdec])]
      rw [if_neg (show ¬(s.mFlushingVideo = .NONE ∨
          s.mFlushingVideo = .AWAITING_DISCONTINUITY) from by
        simp [hne1, hne2])]

theorem C6_witness :
    flushDecoder true true { initState with
      mAudioDecoder := true, mFlushingAudio := .FLUSHED } = .error .checkFail ∧
    flushDecoder true true { initState with mAudioDecoder := true } =
      .ok ({ initState with
             mAudioDecoder := true, mScanSourcesGeneration := 1,
             mFlushingAudio := .FLUSHING_DECODER_SHUTDOWN,
             mFlushingVideo := .FLUSHED },
           [.signalFlush true, .rendererFlush true]) :=
  ⟨(C6_flushDecoder_transitions { initState with
      mAudioDecoder := true, mFlushingAudio := .FLUSHED } true true
      (by decide)).2 (by decide),
   by rfl⟩

theorem C7_helper {s : NPState} {g : Nat} {vf af fm : Bool}
    {s' : NPState} {ev : List Event}
    (hg : g = s.mScanSourcesGeneration) (hl : s.mListener = true)
    (h : onMessageReceived s (.scanSources g vf af fm) = .ok (s', ev)) :
    ((fm = false ∧ s'.mAudioDecoder = false ∧ s'.mVideoDecoder = false) →
      (Event.sendEvent .PLAYBACK_COMPLETE ∈ ev ∧ scanPostsOf ev = [])) ∧
    ((fm = true ∧ (s'.mAudioDecoder = false ∨ s'.mVideoDecoder = false)) →
      (Event.postScan g true ∈ ev ∧ s'.mScanSourcesPending = true)) ∧
    ((s'.mAudioDecoder = true ∧ s'.mVideoDecoder = true) →
      scanPostsOf ev = []) := by
  simp only [onMessageReceived] at h
  rw [if_neg (by simp [hg])] at h
  cases hID2 : instantiateDecoder false vf { s with mScanSourcesPending := false } with
  | mk s2 ev2 =>
    have h2 := instantiateDecoder_spec false vf { s with mScanSourcesPending := false }
    rw [hID2] at h2
    dsimp only at h2
    obtain ⟨-, -, -, -, -, h2l, -, -, h2posts, -⟩ := h2
    rw [hID2] at h
    dsimp only at h
    have hs3 : ∃ s3 ev3,
        (if s2.mAudioSink = true then instantiateDecoder true af s2 else (s2, [])) =
          (s3, ev3) ∧
        s3.mListener = s2.mListener ∧ scanPostsOf ev3 = [] := by
      by_cases hsink : s2.mAudioSink = true
      · rw [if_pos hsink]
        have h3 := instantiateDecoder_spec true af s2
        exact ⟨_, _, rfl, h3.2.2.2.2.2.1, h3.2.2.2.2.2.2.2.2.1⟩
      · rw [if_neg hsink]
        exact ⟨s2, [], rfl, rfl, rfl⟩
    obtain ⟨s3, ev3, hID3, h3l, h3posts⟩ := hs3
    rw [hID3] at h
    dsimp only at h
    have hl3 : s3.mListener = true := by
      rw [h3l, h2l]
      exact hl
    by_cases hfm : fm = false
    · rw [if_pos hfm] at h
      by_cases hnone : s3.mAudioDecoder = false ∧ s3.mVideoDecoder = false
      · rw [if_pos hnone] at h
        simp only [Except.ok.injEq, Prod.mk.injEq] at h
        obtain ⟨rfl, rfl⟩ := h
        have hnot : notifyListener s3 .PLAYBACK_COMPLETE =
            [Event.sendEvent .PLAYBACK_COMPLETE] := by
          unfold notifyListener
          rw [if_pos hl3]
        refine ⟨fun _ => ⟨?_, ?_⟩, ?_, ?_⟩
        · rw [hnot]
          simp
        · rw [hnot]
          simp only [scanPostsOf_append, h2posts, h3posts]
          rfl
        · rintro ⟨hfm2, -⟩
          rw [hfm] at hfm2
          cases hfm2
        · rintro ⟨ha, -⟩
          rw [hnone.1] at ha
          cases ha
      · rw [if_neg hnone] at h
        simp only [Except.ok.injEq, Prod.mk.injEq] at h
        obtain ⟨rfl, rfl⟩ := h
        refine ⟨?_, ?_, ?_⟩
        · rintro ⟨-, ha, hv⟩
          exact absurd ⟨ha, hv⟩ hnone
        · rintro ⟨hfm2, -⟩
          rw [hfm] at hfm2
          cases hfm2
        · intro _
          simp only [scanPostsOf_append, h2posts, h3posts]
          rfl
    · rw [if_neg hfm] at h
      by_cases hone : s3.mAudioDecoder = false ∨ s3.mVideoDecoder = false
      · rw [if_pos hone] at h
        simp only [Except.ok.injEq, Prod.mk.injEq] at h
        obtain ⟨rfl, rfl⟩ := h
        refine ⟨?_, fun _ => ⟨?_, rfl⟩, ?_⟩
        · rintro ⟨hfm2, -⟩
          rw [hfm2] at hfm
          exact absurd rfl hfm
        · simp
        · rintro ⟨ha, hv⟩
          rcases hone with h4 | h4
          · exact absurd ha (by simp [h4])
          · exact absurd hv (by simp [h4])
      · rw [if_neg hone] at h
        simp only [Except.ok.injEq, Prod.mk.injEq] at h
        obtain ⟨rfl, rfl⟩ := h
        refine ⟨?_, ?_, ?_⟩
        · rintro ⟨hfm2, -⟩
          rw [hfm2] at hfm
          exact absurd rfl hfm
        · rintro ⟨-, hor⟩
          exact absurd hor hone
        · intro _
          simp only [scanPostsOf_append, h2posts, h3posts]
          rfl

/-- C7: processing a current-generation ScanSources with a live
listener: when feed_more is false and both decoders remain absent the
listener gets PLAYBACK_COMPLETE and no ScanSources is posted; when
feed_more is true and a decoder remains absent a delayed ScanSources
carrying the same generation is posted and mScanSourcesPending is set;
when both decoders exist, no re-post occurs. -/
theorem C7_scanSources_behavior :
    ∀ (s : NPState) (g : Nat) (vf af fm : Bool) (s' : NPState) (ev : List Event),
      g = s.mScanSourcesGeneration → s.mListener = true →
      onMessageReceived s (.scanSources g vf af fm) = .ok (s', ev) →
      ((fm = false ∧ s'.mAudioDecoder = false ∧ s'.mVideoDecoder = false) →
        (Event.sendEvent .PLAYBACK_COMPLETE ∈ ev ∧ scanPostsOf ev = [])) ∧
      ((fm = true ∧ (s'.mAudioDecoder = false ∨ s'.mVideoDecoder = false)) →
        (Event.postScan g true ∈ ev ∧ s'.mScanSourcesPending = true)) ∧
      ((s'.mAudioDecoder = true ∧ s'.mVideoDecoder = true) →
        scanPostsOf ev = []) := by
  exact fun s g vf af fm s' ev hg hl h => C7_helper hg hl h

theorem C7_witness :
    ((false = false ∧
      ({ initState with mListener := true, mScanSourcesPending := false }
        : NPState).mAudioDecoder = false ∧
      ({ initState with mListener := true, mScanSourcesPending := false }
        : NPState).mVideoDecoder = false) →
      (Event.sendEvent .PLAYBACK_COMPLETE ∈
        [Event.sourceGetFormat false, Event.sourceFeedMore,
         Event.sendEvent .PLAYBACK_COMPLETE] ∧
       scanPostsOf [Event.sourceGetFormat false, Event.sourceFeedMore,
         Event.sendEvent .PLAYBACK_COMPLETE] = [])) ∧
    ((false = true ∧
      (({ initState with mListener := true, mScanSourcesPending := false }
        : NPState).mAudioDecoder = false ∨
       ({ initState with mListener := true, mScanSourcesPending := false }
        : NPState).mVideoDecoder = false)) →
      (Event.postScan 0 true ∈
        [Event.sourceGetFormat false, Event.sourceFeedMore,
         Event.sendEvent .PLAYBACK_COMPLETE] ∧
       ({ initState with mListener := true, mScanSourcesPending := false }
        : NPState).mScanSourcesPending = true)) ∧
    ((({ initState with mListener := true, mScanSourcesPending := false }
        : NPState).mAudioDecoder = true ∧
      ({ initState with mListener := true, mScanSourcesPending := false }
        : NPState).mVideoDecoder = true) →
      scanPostsOf [Event.sourceGetFormat false, Event.sourceFeedMore,
        Event.sendEvent .PLAYBACK_COMPLETE] = []) :=
  C7_scanSources_behavior { initState with mListener := true } 0 false false false
    { initState with mListener := true, mScanSourcesPending := false }
    [Event.sourceGetFormat false, Event.sourceFeedMore,
     Event.sendEvent .PLAYBACK_COMPLETE]
    rfl rfl (by rfl)

theorem C8_helper {s : NPState} {audio : Bool} {s' : NPState} {ev : List Event}
    (hl : s.mListener = true)
    (h : onMessageReceived s (.rendererEOS audio) = .ok (s', ev)) :
    (audio = true → s'.mAudioEOS = true ∧ s'.mVideoEOS = s.mVideoEOS) ∧
    (audio = false → s'.mVideoEOS = true ∧ s'.mAudioEOS = s.mAudioEOS) ∧
    s'.mAudioDecoder = s.mAudioDecoder ∧ s'.mVideoDecoder = s.mVideoDecoder ∧
    (Event.sendEvent .PLAYBACK_COMPLETE ∈ ev ↔
      ((s'.mAudioEOS = true ∨ s'.mAudioDecoder = false) ∧
       (s'.mVideoEOS = true ∨ s'.mVideoDecoder = false))) := by
  simp only [onMessageReceived] at h
  cases audio with
  | false =>
    simp only [Bool.false_eq_true, Bool.true_eq_false, eq_self_iff_true,
      true_or, or_true, true_and, and_true, ↓reduceIte] at h
    by_cases hc : (s.mAudioEOS = true ∨ s.mAudioDecoder = false)
    · rw [if_pos hc] at h
      simp only [Except.ok.injEq, Prod.mk.injEq] at h
      obtain ⟨rfl, rfl⟩ := h
      have hnot : notifyListener { s with mVideoEOS := true } .PLAYBACK_COMPLETE =
          [Event.sendEvent .PLAYBACK_COMPLETE] := by
        unfold notifyListener
        rw [if_pos hl]
      rw [hnot]
      refine ⟨fun h4 => absurd h4 (by decide), fun _ => ⟨rfl, rfl⟩, rfl, rfl, ?_⟩
      constructor
      · intro _
        exact ⟨hc, Or.inl rfl⟩
      · intro _
        simp
    · rw [if_neg hc] at h
      simp only [Except.ok.injEq, Prod.mk.injEq] at h
      obtain ⟨rfl, rfl⟩ := h
      refine ⟨fun h4 => absurd h4 (by decide), fun _ => ⟨rfl, rfl⟩, rfl, rfl, ?_⟩
      constructor
      · intro hmem
        simp at hmem
      · rintro ⟨h4, h5⟩
        exact absurd h4 hc
  | true =>
    simp only [Bool.false_eq_true, Bool.true_eq_false, eq_self_iff_true,
      true_or, or_true, true_and, and_true, ↓reduceIte] at h
    by_cases hc : (s.mVideoEOS = true ∨ s.mVideoDecoder = false)
    · rw [if_pos hc] at h
      simp only [Except.ok.injEq, Prod.mk.injEq] at h
      obtain ⟨rfl, rfl⟩ := h
      have hnot : notifyListener { s with mAudioEOS := true } .PLAYBACK_COMPLETE =
          [Event.sendEvent .PLAYBACK_COMPLETE] := by
        unfold notifyListener
        rw [if_pos hl]
      rw [hnot]
      refine ⟨fun _ => ⟨rfl, rfl⟩, fun h4 => absurd h4 (by decide), rfl, rfl, ?_⟩
      constructor
      · intro _
        exact ⟨Or.inl rfl, hc⟩
      · intro _
        simp
    · rw [if_neg hc] at h
      simp only [Except.ok.injEq, Prod.mk.injEq] at h
      obtain ⟨rfl, rfl⟩ := h
      refine ⟨fun _ => ⟨rfl, rfl⟩, fun h4 => absurd h4 (by decide), rfl, rfl, ?_⟩
      constructor
      · intro hmem
        simp at hmem
      · rintro ⟨h4, h5⟩
        exact absurd h5 hc

/-- C8: processing a renderer EOS notification with a live listener sets
the EOS flag of the indicated track, leaves the decoder handles
unchanged, and sends PLAYBACK_COMPLETE iff, after the update, (audio at
EOS or audio decoder absent) and (video at EOS or video decoder
absent). -/
theorem C8_rendererEOS_behavior :
    ∀ (s : NPState) (audio : Bool) (s' : NPState) (ev : List Event),
      s.mListener = true →
      onMessageReceived s (.rendererEOS audio) = .ok (s', ev) →
      (audio = true → s'.mAudioEOS = true ∧ s'.mVideoEOS = s.mVideoEOS) ∧
      (audio = false → s'.mVideoEOS = true ∧ s'.mAudioEOS = s.mAudioEOS) ∧
      s'.mAudioDecoder = s.mAudioDecoder ∧ s'.mVideoDecoder = s.mVideoDecoder ∧
      (Event.sendEvent .PLAYBACK_COMPLETE ∈ ev ↔
        ((s'.mAudioEOS = true ∨ s'.mAudioDecoder = false) ∧
         (s'.mVideoEOS = true ∨ s'.mVideoDecoder = false))) := by
  exact fun s audio s' ev hl h => C8_helper hl h

theorem C8_witness :
    (true = true →
      ({ { initState with mListener := true } with mAudioEOS := true }
        : NPState).mAudioEOS = true ∧
      ({ { initState with mListener := true } with mAudioEOS := true }
        : NPState).mVideoEOS =
        ({ initState with mListener := true } : NPState).mVideoEOS) ∧
    (true = false →
      ({ { initState with mListener := true } with mAudioEOS := true }
        : NPState).mVideoEOS = true ∧
      ({ { initState with mListener := true } with mAudioEOS := true }
        : NPState).mAudioEOS =
        ({ initState with mListener := true } : NPState).mAudioEOS) ∧
    ({ { initState with mListener := true } with mAudioEOS := true }
      : NPState).mAudioDecoder =
      ({ initState with mListener := true } : NPState).mAudioDecoder ∧
    ({ { initState with mListener := true } with mAudioEOS := true }
      : NPState).mVideoDecoder =
      ({ initState with mListener := true } : NPState).mVideoDecoder ∧
    (Event.sendEvent .PLAYBACK_COMPLETE ∈
        [Event.sendEvent NotifyCode.PLAYBACK_COMPLETE] ↔
      ((({ { initState with mListener := true } with mAudioEOS := true }
         : NPState).mAudioEOS = true ∨
        ({ { initState with mListener := true } with mAudioEOS := true }
         : NPState).mAudioDecoder = false) ∧
       (({ { initState with mListener := true } with mAudioEOS := true }
         : NPState).mVideoEOS = true ∨
        ({ { initState with mListener := true } with mAudioEOS := true }
         : NPState).mVideoDecoder = false))) :=
  C8_rendererEOS_behavior { initState with mListener := true } true
    { { initState with mListener := true } with mAudioEOS := true }
    [Event.sendEvent NotifyCode.PLAYBACK_COMPLETE] rfl (by rfl)

/-- C9 counterexample: a reachable system in which mScanSourcesPending is
true while the only queued ScanSources message carries generation 0 and
the current generation is 1: the stale-generation bump performed by
flushDecoder neither clears the pending flag nor removes the queued
message, so pending does not imply a current-generation scan in the
queue. -/
theorem C9_counterexample :
    Reachable sysC9 ∧ sysC9.st.mScanSourcesPending = true ∧
    sysC9.scans = [0] ∧ sysC9.st.mScanSourcesGeneration = 1 := by
  exact ⟨runSys_reachable trC9 rfl, by rfl, by rfl, by rfl⟩

/-- C9 (amended): after every dispatched message at most one unconsumed
ScanSources message is queued, and whenever any ScanSources message is
queued the pending flag is set (the flag may remain set with no
current-generation scan queued); postScanSources posts nothing when the
pending flag is already set; and after processing a current-generation
ScanSources the pending flag holds iff the handler re-posted. -/
theorem scanPending_iff_repost {s : NPState} {g : Nat} {vf af fm : Bool}
    {s' : NPState} {ev : List Event}
    (hg : g = s.mScanSourcesGeneration)
    (h : onMessageReceived s (.scanSources g vf af fm) = .ok (s', ev)) :
    (s'.mScanSourcesPending = true ↔ scanPostsOf ev ≠ []) := by
  simp only [onMessageReceived] at h
  rw [if_neg (by simp [hg])] at h
  cases hID2 : instantiateDecoder false vf { s with mScanSourcesPending := false } with
  | mk s2 ev2 =>
    have h2 := instantiateDecoder_spec false vf { s with mScanSourcesPending := false }
    rw [hID2] at h2
    dsimp only at h2
    obtain ⟨-, -, -, h2p, -, -, -, -, h2posts, -⟩ := h2
    rw [hID2] at h
    dsimp only at h
    have hs3 : ∃ s3 ev3,
        (if s2.mAudioSink = true then instantiateDecoder true af s2 else (s2, [])) =
          (s3, ev3) ∧
        s3.mScanSourcesPending = s2.mScanSourcesPending ∧
        scanPostsOf ev3 = [] := by
      by_cases hsink : s2.mAudioSink = true
      · rw [if_pos hsink]
        have h3 := instantiateDecoder_spec true af s2
        exact ⟨_, _, rfl, h3.2.2.2.1, h3.2.2.2.2.2.2.2.2.1⟩
      · rw [if_neg hsink]
        exact ⟨s2, [], rfl, rfl, rfl⟩
    obtain ⟨s3, ev3, hID3, h3p, h3posts⟩ := hs3
    rw [hID3] at h
    dsimp only at h
    have hp3 : s3.mScanSourcesPending = false := by
      rw [h3p, h2p]
    by_cases hfm : fm = false
    · rw [if_pos hfm] at h
      by_cases hnone : s3.mAudioDecoder = false ∧ s3.mVideoDecoder = false
      · rw [if_pos hnone] at h
        simp only [Except.ok.injEq, Prod.mk.injEq] at h
        obtain ⟨rfl, rfl⟩ := h
        rw [hp3]
        simp only [scanPostsOf_append, h2posts, h3posts,
          scanPostsOf_notifyListener]
        simp [scanPostsOf]
      · rw [if_neg hnone] at h
        simp only [Except.ok.injEq, Prod.mk.injEq] at h
        obtain ⟨rfl, rfl⟩ := h
        rw [hp3]
        simp only [scanPostsOf_append, h2posts, h3posts]
        simp [scanPostsOf]
    · rw [if_neg hfm] at h
      by_cases hone : s3.mAudioDecoder = false ∨ s3.mVideoDecoder = false
      · rw [if_pos hone] at h
        simp only [Except.ok.injEq, Prod.mk.injEq] at h
        obtain ⟨rfl, rfl⟩ := h
        simp only [scanPostsOf_append, h2posts, h3posts]
        simp [scanPostsOf]
      · rw [if_neg hone] at h
        simp only [Except.ok.injEq, Prod.mk.injEq] at h
        obtain ⟨rfl, rfl⟩ := h
        rw [hp3]
        simp only [scanPostsOf_append, h2posts, h3posts]
        simp [scanPostsOf]

theorem C9_scan_queue_invariant :
    (∀ sys : Sys, Reachable sys → ScanQueueInv sys) ∧
    (∀ s : NPState, s.mScanSourcesPending = true → postScanSources s = (s, [])) ∧
    (∀ (s : NPState) (g : Nat) (vf af fm : Bool) (s' : NPState) (ev : List Event),
      g = s.mScanSourcesGeneration →
      onMessageReceived s (.scanSources g vf af fm) = .ok (s', ev) →
      (s'.mScanSourcesPending = true ↔ scanPostsOf ev ≠ [])) := by
  refine ⟨fun sys h => reachable_scanQueueInv h,
    fun s h => postScanSources_pending s h, ?_⟩
  exact fun s g vf af fm s' ev hg h => scanPending_iff_repost hg h

theorem C9_witness :
    ScanQueueInv initSys ∧
    postScanSources { initState with mScanSourcesPending := true } =
      ({ initState with mScanSourcesPending := true }, []) :=
  ⟨C9_scan_queue_invariant.1 initSys Relation.ReflTransGen.refl,
   C9_scan_queue_invariant.2.1 { initState with mScanSourcesPending := true } rfl⟩

/-- C10: in every reachable system state, a track whose FlushStatus is
FLUSHING_DECODER, FLUSHING_DECODER_SHUTDOWN or SHUTTING_DOWN_DECODER has
a live decoder handle, and no dispatchable message (decoder
notifications are dispatched only while the decoder handle is live, per
the concurrency model of the spec) makes the handler dereference a null
decoder handle. -/
theorem C10_flushing_decoder_nonnull :
    ∀ sys : Sys, Reachable sys →
      DecoderInv sys.st ∧
      (∀ m : Msg, decoderLive sys.st m = true →
        onMessageReceived sys.st m ≠ .error .nullDeref) := by
  intro sys h
  exact ⟨reachable_decoderInv h, fun m hl => step_not_nullDeref _ m hl⟩

theorem C10_witness :
    DecoderInv initSys.st ∧
    onMessageReceived initSys.st .moreDataQueued ≠ .error .nullDeref :=
  ⟨(C10_flushing_decoder_nonnull initSys Relation.ReflTransGen.refl).1,
   (C10_flushing_decoder_nonnull initSys Relation.ReflTransGen.refl).2
     .moreDataQueued rfl⟩

end NuPlayer
